import Mathlib

/-!
# Verification of `scepter/setup/cflx_proc.py`

A shallow embedding, over `ℚ`, of the CDR flux post-processing functions of
`src/scepter/setup/cflx_proc.py` (`preprocess_txt`/`get_data` file access,
`co2_flx`, `sld_flx`, `sumCat_adv`, `find_cations`, `build_cation_df`,
`cflx_calc`), together with theorems settling the specification claims.

Modelling conventions:
* pandas `DataFrame`s are modelled column-wise as `List (String × List ℚ)`
  (a column name paired with its values); pandas column arithmetic becomes
  `List.zipWith`/`List.map` on the value lists.  String-valued columns
  (`units`, `flx_type`, `runname`, `var`, `cation`) carry no numeric content;
  where a claim needs one (the `var` label of `sumCat_adv`) it is modelled as
  a separate field of the result structure, otherwise it is omitted.
* floats are modelled as exact rationals.
* Python exceptions (`FileNotFoundError` for a missing input file, the
  `NameError`/`UnboundLocalError` for `sumCat_adv`'s loop variable, `KeyError`
  for a molar-mass lookup) are modelled with `Except String`.
-/

namespace CflxProc

/-! ## Generic column/table helpers -/

/-- A data frame, column-oriented: each entry is a column name with its
numeric values.  Mirrors the pandas `DataFrame`s built by `cflx_proc.py`. -/
abbrev DF : Type := List (String × List ℚ)

/-- The column names of a data frame (`df.columns`). -/
def dfCols (df : DF) : List String := df.map Prod.fst

/-- Whether a data frame has a column of the given name (`c in df.columns`). -/
def hasCol : DF → String → Bool
  | [], _ => false
  | p :: rest, c => if p.1 == c then true else hasCol rest c

/-- The values of column `c` (`df[c]`, first matching column); `[]` when the
column is absent. -/
def getCol : DF → String → List ℚ
  | [], _ => []
  | p :: rest, c => if p.1 == c then p.2 else getCol rest c

/-- Element of column `c` at row `i`, defaulting to `0` out of range. -/
def colv (df : DF) (c : String) (i : Nat) : ℚ := (getCol df c).getD i 0

/-- Elementwise sum of two columns (pandas `Series` addition). -/
def addL (a b : List ℚ) : List ℚ := List.zipWith (· + ·) a b

/-- Elementwise difference of two columns. -/
def subL (a b : List ℚ) : List ℚ := List.zipWith (· - ·) a b

/-- Elementwise product of two columns. -/
def mulL (a b : List ℚ) : List ℚ := List.zipWith (· * ·) a b

/-- Row-wise sum of the selected columns (`df[sel].sum(axis=1)`).
Only called on nonempty selections in the source. -/
def sumSel (df : DF) (sel : List String) : List ℚ :=
  match sel.map (getCol df) with
  | [] => []
  | c :: cs => cs.foldl addL c

/-- `df.apply(lambda x: f(x) if x.name not in excl else x)`:
apply `f` to every column whose name is not in `excl`. -/
def applyExcept (excl : List String) (f : List ℚ → List ℚ) (df : DF) : DF :=
  df.map (fun p => if excl.contains p.1 then p else (p.1, f p.2))

/-! ## Unit-conversion constants

Every assembler of `cflx_proc.py` (`co2_flx` lines 319–325, `sld_flx` lines
463–469, `carbAlk_adv` lines 618–624, `sumCat_adv` lines 735–741,
`build_cation_df` lines 920–926) repeats the same three definitions verbatim:
`ton_g = 1 / 1e6`, `m2_ha = 10e3`, `conv_factor = ton_g * m2_ha`.
(`10e3` is the float literal 10·10³ = 10000.) -/

/-- `ton_g = 1 / 1e6` `[ton g-1]`. -/
def ton_g : ℚ := 1 / 1000000

/-- `m2_ha = 10e3` `[m2 ha-1]`. -/
def m2_ha : ℚ := 10000

/-- `conv_factor = ton_g * m2_ha`, the g·m⁻²·yr⁻¹ → ton·ha⁻¹·yr⁻¹ factor. -/
def conv_factor : ℚ := ton_g * m2_ha

/-- `co2_g_mol = 44.01`, the default CO₂ molar mass used by `co2_flx`. -/
def co2_g_mol_default : ℚ := 4401 / 100

/-- C8: in every assembler the g·m⁻²·yr⁻¹ → ton·ha⁻¹·yr⁻¹ factor is the
product `(1/1e6) * 10e3` and equals exactly `0.01`, so the mol → ton·ha
conversion multiplies by molar mass × `0.01` (checked on the `co2_flx`
scale `co2_g_mol * conv_factor`). -/
theorem C8_conv_factor_is_one_hundredth :
    conv_factor = ton_g * m2_ha ∧ conv_factor = 1 / 100 ∧
      co2_g_mol_default * conv_factor = (4401 / 100) * (1 / 100) := by
  refine ⟨rfl, by norm_num [conv_factor, ton_g, m2_ha], ?_⟩
  norm_num [conv_factor, ton_g, m2_ha, co2_g_mol_default]

/-! ## Indexing lemmas for column arithmetic -/

theorem getD_zipWith (f : ℚ → ℚ → ℚ) (a b : List ℚ) (i : Nat)
    (ha : i < a.length) (hb : i < b.length) :
    (List.zipWith f a b).getD i 0 = f (a.getD i 0) (b.getD i 0) := by
  induction a generalizing b i with
  | nil => simp at ha
  | cons x xs ih =>
    cases b with
    | nil => simp at hb
    | cons y ys =>
      cases i with
      | zero => rfl
      | succ n =>
        simp only [List.zipWith_cons_cons, List.getD_cons_succ]
        exact ih ys n (by simpa using ha) (by simpa using hb)

theorem getD_map (f : ℚ → ℚ) (a : List ℚ) (i : Nat) (ha : i < a.length) :
    (a.map f).getD i 0 = f (a.getD i 0) := by
  induction a generalizing i with
  | nil => simp at ha
  | cons x xs ih =>
    cases i with
    | zero => rfl
    | succ n =>
      simp only [List.map_cons, List.getD_cons_succ]
      exact ih n (by simpa using ha)

theorem getCol_applyExcept_of_not_mem (excl : List String) (f : List ℚ → List ℚ)
    (df : DF) (c : String) (h1 : excl.contains c = false) (h2 : hasCol df c = true) :
    getCol (applyExcept excl f df) c = f (getCol df c) := by
  induction df with
  | nil => simp [hasCol] at h2
  | cons p rest ih =>
    cases hc : (p.1 == c) with
    | true =>
      have hpc : p.1 = c := by simpa using hc
      have hp1 : p.1 ∉ excl := by
        have := hpc ▸ h1
        simpa using this
      simp [applyExcept, getCol, hp1, hc]
    | false =>
      have h2r : hasCol rest c = true := by
        simpa [hasCol, hc] using h2
      have ihr := ih h2r
      simp only [applyExcept] at ihr
      by_cases he : p.1 ∈ excl
      · simpa [applyExcept, getCol, he, hc] using ihr
      · simpa [applyExcept, getCol, he, hc] using ihr

theorem getCol_applyExcept_of_mem (excl : List String) (f : List ℚ → List ℚ)
    (df : DF) (c : String) (h1 : excl.contains c = true) :
    getCol (applyExcept excl f df) c = getCol df c := by
  induction df with
  | nil => rfl
  | cons p rest ih =>
    have ihx := ih
    simp only [applyExcept] at ihx
    cases hc : (p.1 == c) with
    | true =>
      have hpc : p.1 = c := by simpa using hc
      have hp1 : p.1 ∈ excl := by
        have := hpc ▸ h1
        simpa using this
      simp [applyExcept, getCol, hp1, hc]
    | false =>
      by_cases he : p.1 ∈ excl
      · simpa [applyExcept, getCol, he, hc] using ihx
      · simpa [applyExcept, getCol, he, hc] using ihx

/-! ## `co2_flx` (source lines 255–420)

`co2_flx` loads the instantaneous and integrated `{var_fn}-{cdvar}.txt`
tables, renames `dif`/`tflx`/`adv` to `co2flx_*`, copies whichever
organic-source columns are present and sums them into `co2flx_resp`, copies
whichever carbonate-source columns are present and sums them into
`co2flx_inorg`, derives `co2flx_adv_noinorg = co2flx_adv + co2flx_inorg`,
scales every non-`time`/`units` column by `co2_g_mol * conv_factor`
(`convert_units=True`) or `co2_g_mol` (`False`), and multiplies the
integrated block additionally by `time`.  The source finally concatenates
the two blocks with `flx_type`/`runname`/`var` tags; the embedding returns
the pair of blocks (the tags are string-valued and carry no numerics). -/

/-- One block (instantaneous or integrated) of `co2_flx` before unit
conversion: column selection/renaming plus the organic/inorganic sums,
source lines 327–380.  pandas assignment of a fresh column appends it, in
program order. -/
def co2_flx_block (df : DF) (organic_sp_list inorganic_sp_list : List String) : DF :=
  let org := organic_sp_list.filter (fun s => hasCol df s)
  let inorg := inorganic_sp_list.filter (fun s => hasCol df s)
  let base : DF :=
    [("time", getCol df "time"), ("co2flx_dif", getCol df "dif"),
     ("co2flx_tflx", getCol df "tflx"), ("co2flx_adv", getCol df "adv")]
  let withOrg := base ++ org.map (fun sp => (sp, getCol df sp)) ++
    (if org.isEmpty then [] else [("co2flx_resp", sumSel df org)])
  withOrg ++ inorg.map (fun sp => (sp, getCol df sp)) ++
    (if inorg.isEmpty then [] else
      [("co2flx_inorg", sumSel df inorg),
       ("co2flx_adv_noinorg", addL (getCol df "adv") (sumSel df inorg))])

/-- `co2_flx` numeric pipeline, source lines 327–420, applied to the already
loaded instantaneous table `df` and integrated table `dfint`. -/
def co2_flx (df dfint : DF)
    (organic_sp_list : List String := ["g1", "g2", "g3"])
    (inorganic_sp_list : List String := ["arg", "cc", "dlm"])
    (convert_units : Bool := true) (co2_g_mol : ℚ := 4401 / 100) : DF × DF :=
  let tdf0 := co2_flx_block df organic_sp_list inorganic_sp_list
  let tdfint0 := co2_flx_block dfint organic_sp_list inorganic_sp_list
  let scale : List ℚ → List ℚ :=
    if convert_units then List.map (fun v => v * co2_g_mol * conv_factor)
    else List.map (fun v => v * co2_g_mol)
  let tdf1 := applyExcept ["time", "units"] scale tdf0
  let tdfint1 := applyExcept ["time", "units"] scale tdfint0
  let tdfint2 :=
    applyExcept ["time", "units"] (fun vs => mulL vs (getCol tdfint1 "time")) tdfint1
  (tdf1, tdfint2)

theorem applyExcept_cons (excl : List String) (f : List ℚ → List ℚ)
    (p : String × List ℚ) (rest : DF) :
    applyExcept excl f (p :: rest) =
      (if excl.contains p.1 then p else (p.1, f p.2)) :: applyExcept excl f rest := rfl

theorem hasCol_applyExcept (excl : List String) (f : List ℚ → List ℚ) (df : DF)
    (c : String) : hasCol (applyExcept excl f df) c = hasCol df c := by
  induction df with
  | nil => rfl
  | cons p rest ih =>
    rw [applyExcept_cons]
    by_cases he : excl.contains p.1 = true
    · rw [if_pos he]
      cases hc : (p.1 == c) <;> simp [hasCol, hc, ih]
    · rw [if_neg he]
      cases hc : (p.1 == c) <;> simp [hasCol, hc, ih]

/-- Under full presence of the default organic and carbonate species columns,
the `co2_flx` block resolves to this explicit column list. -/
theorem co2_flx_block_full (df : DF)
    (h1 : hasCol df "g1" = true) (h2 : hasCol df "g2" = true)
    (h3 : hasCol df "g3" = true) (h4 : hasCol df "arg" = true)
    (h5 : hasCol df "cc" = true) (h6 : hasCol df "dlm" = true) :
    co2_flx_block df ["g1", "g2", "g3"] ["arg", "cc", "dlm"] =
      [("time", getCol df "time"), ("co2flx_dif", getCol df "dif"),
       ("co2flx_tflx", getCol df "tflx"), ("co2flx_adv", getCol df "adv"),
       ("g1", getCol df "g1"), ("g2", getCol df "g2"), ("g3", getCol df "g3"),
       ("co2flx_resp", sumSel df ["g1", "g2", "g3"]),
       ("arg", getCol df "arg"), ("cc", getCol df "cc"), ("dlm", getCol df "dlm"),
       ("co2flx_inorg", sumSel df ["arg", "cc", "dlm"]),
       ("co2flx_adv_noinorg", addL (getCol df "adv") (sumSel df ["arg", "cc", "dlm"]))] := by
  simp [co2_flx_block, List.filter_cons, h1, h2, h3, h4, h5, h6]

/-- The unit-converted instantaneous block of `co2_flx` with the default
species lists (definitionally, the first component of `co2_flx` once the
`convert_units` branch is resolved to the columnwise map `g`). -/
def co2conv (g : ℚ → ℚ) (df : DF) : DF :=
  applyExcept ["time", "units"] (List.map g)
    (co2_flx_block df ["g1", "g2", "g3"] ["arg", "cc", "dlm"])

/-- The unit-converted and time-multiplied integrated block of `co2_flx`
(definitionally, the second component of `co2_flx`). -/
def co2int (g : ℚ → ℚ) (df : DF) : DF :=
  applyExcept ["time", "units"] (fun vs => mulL vs (getCol (co2conv g df) "time"))
    (co2conv g df)

/-- The converted instantaneous block of `co2_flx` satisfies the mass-balance
identity whenever the input table does; also records the column lengths and
the untouched `time` column for reuse on the integrated block. -/
theorem co2_block_conv_balance (df : DF) (g : ℚ → ℚ) (k : ℚ) (n : Nat)
    (hg : ∀ v, g v = v * k)
    (hlen : ∀ c ∈ (["time", "dif", "tflx", "adv", "g1", "g2", "g3", "arg", "cc",
      "dlm"] : List String), (getCol df c).length = n)
    (h1 : hasCol df "g1" = true) (h2 : hasCol df "g2" = true)
    (h3 : hasCol df "g3" = true) (h4 : hasCol df "arg" = true)
    (h5 : hasCol df "cc" = true) (h6 : hasCol df "dlm" = true)
    (hbal : ∀ i < n, colv df "adv" i =
      -colv df "dif" i - (colv df "g1" i + colv df "g2" i + colv df "g3" i)
        - (colv df "arg" i + colv df "cc" i + colv df "dlm" i) - colv df "tflx" i) :
    (∀ c ∈ (["co2flx_dif", "co2flx_tflx", "co2flx_adv", "co2flx_resp",
        "co2flx_inorg"] : List String), (getCol (co2conv g df) c).length = n) ∧
    getCol (co2conv g df) "time" = getCol df "time" ∧
    ∀ i < n,
      colv (co2conv g df) "co2flx_adv" i =
      -colv (co2conv g df) "co2flx_dif" i - colv (co2conv g df) "co2flx_resp" i
      - colv (co2conv g df) "co2flx_inorg" i - colv (co2conv g df) "co2flx_tflx" i := by
  simp only [co2conv]
  have hb := co2_flx_block_full df h1 h2 h3 h4 h5 h6
  have ldif : (getCol df "dif").length = n := hlen "dif" (by simp)
  have ltflx : (getCol df "tflx").length = n := hlen "tflx" (by simp)
  have ladv : (getCol df "adv").length = n := hlen "adv" (by simp)
  have lg1 : (getCol df "g1").length = n := hlen "g1" (by simp)
  have lg2 : (getCol df "g2").length = n := hlen "g2" (by simp)
  have lg3 : (getCol df "g3").length = n := hlen "g3" (by simp)
  have larg : (getCol df "arg").length = n := hlen "arg" (by simp)
  have lcc : (getCol df "cc").length = n := hlen "cc" (by simp)
  have ldlm : (getCol df "dlm").length = n := hlen "dlm" (by simp)
  have hresp : sumSel df ["g1", "g2", "g3"] =
      addL (addL (getCol df "g1") (getCol df "g2")) (getCol df "g3") := rfl
  have hinorg : sumSel df ["arg", "cc", "dlm"] =
      addL (addL (getCol df "arg") (getCol df "cc")) (getCol df "dlm") := rfl
  have lresp : (sumSel df ["g1", "g2", "g3"]).length = n := by
    simp [hresp, addL, List.length_zipWith, lg1, lg2, lg3]
  have linorg : (sumSel df ["arg", "cc", "dlm"]).length = n := by
    simp [hinorg, addL, List.length_zipWith, larg, lcc, ldlm]
  have hBdif : getCol (applyExcept ["time", "units"] (List.map g)
      (co2_flx_block df ["g1", "g2", "g3"] ["arg", "cc", "dlm"])) "co2flx_dif" =
      (getCol df "dif").map g := by
    rw [hb, getCol_applyExcept_of_not_mem _ _ _ _ (by rfl) (by rfl)]
    rfl
  have hBtflx : getCol (applyExcept ["time", "units"] (List.map g)
      (co2_flx_block df ["g1", "g2", "g3"] ["arg", "cc", "dlm"])) "co2flx_tflx" =
      (getCol df "tflx").map g := by
    rw [hb, getCol_applyExcept_of_not_mem _ _ _ _ (by rfl) (by rfl)]
    rfl
  have hBadv : getCol (applyExcept ["time", "units"] (List.map g)
      (co2_flx_block df ["g1", "g2", "g3"] ["arg", "cc", "dlm"])) "co2flx_adv" =
      (getCol df "adv").map g := by
    rw [hb, getCol_applyExcept_of_not_mem _ _ _ _ (by rfl) (by rfl)]
    rfl
  have hBresp : getCol (applyExcept ["time", "units"] (List.map g)
      (co2_flx_block df ["g1", "g2", "g3"] ["arg", "cc", "dlm"])) "co2flx_resp" =
      (sumSel df ["g1", "g2", "g3"]).map g := by
    rw [hb, getCol_applyExcept_of_not_mem _ _ _ _ (by rfl) (by rfl)]
    rfl
  have hBinorg : getCol (applyExcept ["time", "units"] (List.map g)
      (co2_flx_block df ["g1", "g2", "g3"] ["arg", "cc", "dlm"])) "co2flx_inorg" =
      (sumSel df ["arg", "cc", "dlm"]).map g := by
    rw [hb, getCol_applyExcept_of_not_mem _ _ _ _ (by rfl) (by rfl)]
    rfl
  refine ⟨?_, ?_, ?_⟩
  · intro c hc
    simp only [List.mem_cons, List.not_mem_nil, or_false] at hc
    rcases hc with rfl | rfl | rfl | rfl | rfl
    · simp [hBdif, ldif]
    · simp [hBtflx, ltflx]
    · simp [hBadv, ladv]
    · simp [hBresp, lresp]
    · simp [hBinorg, linorg]
  · rw [hb, getCol_applyExcept_of_mem _ _ _ _ (by rfl)]
    rfl
  · intro i hi
    have hin : i < n := hi
    unfold colv
    rw [hBdif, hBtflx, hBadv, hBresp, hBinorg]
    rw [getD_map _ _ _ (by rw [ladv]; exact hin),
      getD_map _ _ _ (by rw [ldif]; exact hin),
      getD_map _ _ _ (by rw [lresp]; exact hin),
      getD_map _ _ _ (by rw [linorg]; exact hin),
      getD_map _ _ _ (by rw [ltflx]; exact hin)]
    rw [hresp, hinorg]
    simp only [addL]
    rw [getD_zipWith _ _ _ _ (by simp [List.length_zipWith, lg1, lg2]; omega) (by rw [lg3]; exact hin),
      getD_zipWith _ _ _ _ (by rw [lg1]; exact hin) (by rw [lg2]; exact hin)]
    rw [getD_zipWith _ _ _ _ (by simp [List.length_zipWith, larg, lcc]; omega) (by rw [ldlm]; exact hin),
      getD_zipWith _ _ _ _ (by rw [larg]; exact hin) (by rw [lcc]; exact hin)]
    have hbi := hbal i hin
    unfold colv at hbi
    rw [hg, hg, hg, hg, hg, hbi]
    ring

/-- The integrated block of `co2_flx` (converted, then multiplied by `time`)
also satisfies the mass-balance identity whenever its input table does. -/
theorem co2_block_int_balance (dfint : DF) (g : ℚ → ℚ) (k : ℚ) (m : Nat)
    (hg : ∀ v, g v = v * k)
    (hlen : ∀ c ∈ (["time", "dif", "tflx", "adv", "g1", "g2", "g3", "arg", "cc",
      "dlm"] : List String), (getCol dfint c).length = m)
    (h1 : hasCol dfint "g1" = true) (h2 : hasCol dfint "g2" = true)
    (h3 : hasCol dfint "g3" = true) (h4 : hasCol dfint "arg" = true)
    (h5 : hasCol dfint "cc" = true) (h6 : hasCol dfint "dlm" = true)
    (hbal : ∀ i < m, colv dfint "adv" i =
      -colv dfint "dif" i - (colv dfint "g1" i + colv dfint "g2" i + colv dfint "g3" i)
        - (colv dfint "arg" i + colv dfint "cc" i + colv dfint "dlm" i)
        - colv dfint "tflx" i) :
    ∀ i < m,
      colv (co2int g dfint) "co2flx_adv" i =
      -colv (co2int g dfint) "co2flx_dif" i - colv (co2int g dfint) "co2flx_resp" i
      - colv (co2int g dfint) "co2flx_inorg" i - colv (co2int g dfint) "co2flx_tflx" i := by
  obtain ⟨lens, htime, hbalB⟩ :=
    co2_block_conv_balance dfint g k m hg hlen h1 h2 h3 h4 h5 h6 hbal
  have ltime : (getCol (co2conv g dfint) "time").length = m := by
    rw [htime]; exact hlen "time" (by simp)
  have hBpres : ∀ c ∈ (["co2flx_dif", "co2flx_tflx", "co2flx_adv", "co2flx_resp",
      "co2flx_inorg"] : List String), hasCol (co2conv g dfint) c = true := by
    intro c hc
    simp only [co2conv]
    rw [hasCol_applyExcept, co2_flx_block_full dfint h1 h2 h3 h4 h5 h6]
    simp only [List.mem_cons, List.not_mem_nil, or_false] at hc
    rcases hc with rfl | rfl | rfl | rfl | rfl <;> rfl
  have hmul : ∀ c ∈ (["co2flx_dif", "co2flx_tflx", "co2flx_adv", "co2flx_resp",
      "co2flx_inorg"] : List String),
      getCol (co2int g dfint) c =
        mulL (getCol (co2conv g dfint) c) (getCol (co2conv g dfint) "time") := by
    intro c hc
    have hnm : (["time", "units"] : List String).contains c = false := by
      simp only [List.mem_cons, List.not_mem_nil, or_false] at hc
      rcases hc with rfl | rfl | rfl | rfl | rfl <;> rfl
    exact getCol_applyExcept_of_not_mem _ _ _ _ hnm (hBpres c hc)
  intro i hi
  unfold colv
  rw [hmul "co2flx_adv" (by simp), hmul "co2flx_dif" (by simp),
    hmul "co2flx_resp" (by simp), hmul "co2flx_inorg" (by simp),
    hmul "co2flx_tflx" (by simp)]
  simp only [mulL]
  rw [getD_zipWith _ _ _ _ (by rw [lens "co2flx_adv" (by simp)]; exact hi) (by rw [ltime]; exact hi),
    getD_zipWith _ _ _ _ (by rw [lens "co2flx_dif" (by simp)]; exact hi) (by rw [ltime]; exact hi),
    getD_zipWith _ _ _ _ (by rw [lens "co2flx_resp" (by simp)]; exact hi) (by rw [ltime]; exact hi),
    getD_zipWith _ _ _ _ (by rw [lens "co2flx_inorg" (by simp)]; exact hi) (by rw [ltime]; exact hi),
    getD_zipWith _ _ _ _ (by rw [lens "co2flx_tflx" (by simp)]; exact hi) (by rw [ltime]; exact hi)]
  have hbi := hbalB i hi
  unfold colv at hbi
  rw [hbi]
  ring

/-- C2: for every pair of instantaneous and integrated `flx_gas` tables in
which all three organic-source columns (`g1`,`g2`,`g3`) and all carbonate
source columns (`arg`,`cc`,`dlm`) are present and every row satisfies
`adv = -dif - (g1+g2+g3) - (arg+cc+dlm) - tflx`, every row of both blocks of
the `co2_flx` output satisfies
`co2flx_adv = -co2flx_dif - co2flx_resp - co2flx_inorg - co2flx_tflx`:
the unit conversion (either `convert_units` setting, any molar mass) and the
integrated-block time multiplication preserve the identity. -/
theorem C2_mass_balance_preserved (df dfint : DF) (cu : Bool) (cg : ℚ) (n m : Nat)
    (hdf : ∀ c ∈ (["time", "dif", "tflx", "adv", "g1", "g2", "g3", "arg", "cc",
      "dlm"] : List String), (getCol df c).length = n)
    (hdfint : ∀ c ∈ (["time", "dif", "tflx", "adv", "g1", "g2", "g3", "arg", "cc",
      "dlm"] : List String), (getCol dfint c).length = m)
    (hp : ∀ c ∈ (["g1", "g2", "g3", "arg", "cc", "dlm"] : List String),
      hasCol df c = true)
    (hpint : ∀ c ∈ (["g1", "g2", "g3", "arg", "cc", "dlm"] : List String),
      hasCol dfint c = true)
    (hbal : ∀ i < n, colv df "adv" i =
      -colv df "dif" i - (colv df "g1" i + colv df "g2" i + colv df "g3" i)
        - (colv df "arg" i + colv df "cc" i + colv df "dlm" i) - colv df "tflx" i)
    (hbalint : ∀ i < m, colv dfint "adv" i =
      -colv dfint "dif" i - (colv dfint "g1" i + colv dfint "g2" i + colv dfint "g3" i)
        - (colv dfint "arg" i + colv dfint "cc" i + colv dfint "dlm" i)
        - colv dfint "tflx" i) :
    (∀ i < n,
      colv (co2_flx df dfint ["g1", "g2", "g3"] ["arg", "cc", "dlm"] cu cg).1
          "co2flx_adv" i =
      -colv (co2_flx df dfint ["g1", "g2", "g3"] ["arg", "cc", "dlm"] cu cg).1
          "co2flx_dif" i
      - colv (co2_flx df dfint ["g1", "g2", "g3"] ["arg", "cc", "dlm"] cu cg).1
          "co2flx_resp" i
      - colv (co2_flx df dfint ["g1", "g2", "g3"] ["arg", "cc", "dlm"] cu cg).1
          "co2flx_inorg" i
      - colv (co2_flx df dfint ["g1", "g2", "g3"] ["arg", "cc", "dlm"] cu cg).1
          "co2flx_tflx" i) ∧
    (∀ i < m,
      colv (co2_flx df dfint ["g1", "g2", "g3"] ["arg", "cc", "dlm"] cu cg).2
          "co2flx_adv" i =
      -colv (co2_flx df dfint ["g1", "g2", "g3"] ["arg", "cc", "dlm"] cu cg).2
          "co2flx_dif" i
      - colv (co2_flx df dfint ["g1", "g2", "g3"] ["arg", "cc", "dlm"] cu cg).2
          "co2flx_resp" i
      - colv (co2_flx df dfint ["g1", "g2", "g3"] ["arg", "cc", "dlm"] cu cg).2
          "co2flx_inorg" i
      - colv (co2_flx df dfint ["g1", "g2", "g3"] ["arg", "cc", "dlm"] cu cg).2
          "co2flx_tflx" i) := by
  have hp1 := hp "g1" (by simp)
  have hp2 := hp "g2" (by simp)
  have hp3 := hp "g3" (by simp)
  have hp4 := hp "arg" (by simp)
  have hp5 := hp "cc" (by simp)
  have hp6 := hp "dlm" (by simp)
  have hq1 := hpint "g1" (by simp)
  have hq2 := hpint "g2" (by simp)
  have hq3 := hpint "g3" (by simp)
  have hq4 := hpint "arg" (by simp)
  have hq5 := hpint "cc" (by simp)
  have hq6 := hpint "dlm" (by simp)
  cases cu with
  | true =>
    refine ⟨?_, ?_⟩
    · exact (co2_block_conv_balance df (fun v => v * cg * conv_factor)
        (cg * conv_factor) n (fun v => mul_assoc v cg conv_factor) hdf
        hp1 hp2 hp3 hp4 hp5 hp6 hbal).2.2
    · exact co2_block_int_balance dfint (fun v => v * cg * conv_factor)
        (cg * conv_factor) m (fun v => mul_assoc v cg conv_factor) hdfint
        hq1 hq2 hq3 hq4 hq5 hq6 hbalint
  | false =>
    refine ⟨?_, ?_⟩
    · exact (co2_block_conv_balance df (fun v => v * cg) cg n (fun v => rfl) hdf
        hp1 hp2 hp3 hp4 hp5 hp6 hbal).2.2
    · exact co2_block_int_balance dfint (fun v => v * cg) cg m (fun v => rfl) hdfint
        hq1 hq2 hq3 hq4 hq5 hq6 hbalint

/-- A one-row pair of tables satisfying C2's hypotheses, used as its witness
input: `adv = 1 = -(-1) - (0+0+0) - (0+0+0) - 0`. -/
def co2_balance_example : DF :=
  [("time", [0]), ("dif", [-1]), ("tflx", [0]), ("adv", [1]), ("g1", [0]),
   ("g2", [0]), ("g3", [0]), ("arg", [0]), ("cc", [0]), ("dlm", [0])]

/-- Witness for C2 at a concrete one-row input. -/
theorem C2_mass_balance_preserved_witness :
    colv (co2_flx co2_balance_example co2_balance_example ["g1", "g2", "g3"]
        ["arg", "cc", "dlm"] true (4401 / 100)).1 "co2flx_adv" 0 =
    -colv (co2_flx co2_balance_example co2_balance_example ["g1", "g2", "g3"]
        ["arg", "cc", "dlm"] true (4401 / 100)).1 "co2flx_dif" 0
    - colv (co2_flx co2_balance_example co2_balance_example ["g1", "g2", "g3"]
        ["arg", "cc", "dlm"] true (4401 / 100)).1 "co2flx_resp" 0
    - colv (co2_flx co2_balance_example co2_balance_example ["g1", "g2", "g3"]
        ["arg", "cc", "dlm"] true (4401 / 100)).1 "co2flx_inorg" 0
    - colv (co2_flx co2_balance_example co2_balance_example ["g1", "g2", "g3"]
        ["arg", "cc", "dlm"] true (4401 / 100)).1 "co2flx_tflx" 0 :=
  (C2_mass_balance_preserved co2_balance_example co2_balance_example true
    (4401 / 100) 1 1 (by decide) (by decide) (by decide) (by decide)
    (by intro i hi; interval_cases i; simp [colv, getCol, co2_balance_example])
    (by intro i hi; interval_cases i; simp [colv, getCol, co2_balance_example])).1
    0 (by norm_num)

/-- The synthetic `flx_gas-pco2.txt` table of the spec's end-to-end example:
`time=[1,2,3]`, `dif=[-1,-1,-1]`, `tflx=[0.5,0.4,0.3]`, `adv=[0.4,0.5,0.6]`,
`cc=[0.1,0.1,0.1]`; the `int_` counterpart is taken identical. -/
def pco2_example : DF :=
  [("time", [1, 2, 3]), ("dif", [-1, -1, -1]), ("tflx", [1/2, 2/5, 3/10]),
   ("adv", [2/5, 1/2, 3/5]), ("cc", [1/10, 1/10, 1/10])]

/-- C5 counterexample: on the spec's synthetic input, `co2_flx` (with its
default `convert_units=True`) does **not** produce
`co2flx_adv_noinorg = 0.5, 0.6, 0.7` — the unit conversion scales the derived
column by `44.01 × 0.01` before output. -/
theorem C5_counterexample :
    ¬ (getCol (co2_flx pco2_example pco2_example).1 "co2flx_adv_noinorg" =
      [1/2, 3/5, 7/10]) := by
  intro h
  simp [co2_flx, co2_flx_block, applyExcept, getCol, hasCol, sumSel, addL, mulL,
    conv_factor, ton_g, m2_ha, pco2_example] at h
  norm_num at h

/-- C5 amended: on the synthetic input, the instantaneous
`co2flx_adv_noinorg` equals `(0.5, 0.6, 0.7)` *scaled by `44.01 × 0.01`*
(`co2flx_adv + co2flx_inorg` still holds row-wise in the output, the scaling
being linear), and the integrated-table rows equal the input values scaled by
`time` and by `44.01 × 0.01`. -/
theorem C5_amended_scaled_output :
    getCol (co2_flx pco2_example pco2_example).1 "co2flx_adv_noinorg" =
      [(1/2) * ((4401/100) * (1/100)), (3/5) * ((4401/100) * (1/100)),
       (7/10) * ((4401/100) * (1/100))] ∧
    getCol (co2_flx pco2_example pco2_example).1 "co2flx_adv_noinorg" =
      addL (getCol (co2_flx pco2_example pco2_example).1 "co2flx_adv")
        (getCol (co2_flx pco2_example pco2_example).1 "co2flx_inorg") ∧
    getCol (co2_flx pco2_example pco2_example).2 "co2flx_dif" =
      mulL ((getCol pco2_example "dif").map (fun v => v * (4401/100) * conv_factor))
        (getCol pco2_example "time") ∧
    getCol (co2_flx pco2_example pco2_example).2 "co2flx_tflx" =
      mulL ((getCol pco2_example "tflx").map (fun v => v * (4401/100) * conv_factor))
        (getCol pco2_example "time") ∧
    getCol (co2_flx pco2_example pco2_example).2 "co2flx_adv" =
      mulL ((getCol pco2_example "adv").map (fun v => v * (4401/100) * conv_factor))
        (getCol pco2_example "time") := by
  refine ⟨?_, ?_, ?_, ?_, ?_⟩ <;>
    · simp [co2_flx, co2_flx_block, applyExcept, getCol, hasCol, sumSel, addL,
        mulL, conv_factor, ton_g, m2_ha, pco2_example]
      try norm_num

/-! ## Molar masses (source lines 29–92) -/

/-- `molar_mass_dict` (Kanzaki et al., 2022, table 1, plus `amnt` and the
computed `gbas` mass), transcribed exactly; floats as exact decimals. -/
def molar_mass_dict : List (String × ℚ) :=
  [("amsi", 60.085), ("qtz", 60.085), ("gb", 78.004), ("gt", 88.854),
   ("hm", 159.692), ("gps", 172.168), ("arg", 100.089), ("cc", 100.089),
   ("dlm", 184.403), ("ab", 262.225), ("kfs", 278.33), ("an", 278.311),
   ("fo", 140.694), ("fa", 203.778), ("en", 100.389), ("fer", 131.931),
   ("dp", 216.553), ("hb", 248.09), ("tm", 812.374), ("antp", 780.976),
   ("mscv", 398.311), ("plgp", 417.262), ("ct", 277.113), ("ka", 258.162),
   ("anl", 220.155), ("nph", 142.055), ("nabd", 367.609), ("kbd", 372.978),
   ("cabd", 366.625), ("mgbd", 363.996), ("ill", 383.90), ("g1", 30),
   ("g2", 30), ("g3", 30), ("amnt", 80.043), ("gbas", 120.496)]

/-- Python `dict[key]` lookup; `none` models the `KeyError` case. -/
def dictLookup : List (String × ℚ) → String → Option ℚ
  | [], _ => none
  | p :: rest, s => if p.1 == s then some p.2 else dictLookup rest s

/-! ## Trapezoidal integration and the dust series (`sld_flx`, lines 423–568)

`sld_flx` loads `flx_sld-{feedstock}.txt` and its `int_` counterpart,
multiplies the integrated table by `time`, then (for `dust_from_file=True`)
recomputes the whole-run cumulative applied-dust series from `dust.txt` via
`scipy.integrate.cumulative_trapezoid` — crucially, it integrates the *raw*
series first and handles duplicate `time` values only afterwards, and only
in the branch where the dust series' length differs from the flux table's. -/

/-- The trapezoid increments of `scipy.integrate.cumulative_trapezoid`:
`(t₂ - t₁) * (y₁ + y₂) / 2` for each consecutive pair. -/
def trapIncs : List ℚ → List ℚ → List ℚ
  | y1 :: y2 :: ys, t1 :: t2 :: ts =>
      (t2 - t1) * (y1 + y2) / 2 :: trapIncs (y2 :: ys) (t2 :: ts)
  | _, _ => []

/-- `scipy.integrate.cumulative_trapezoid(ys, ts, initial=0)`. -/
def cumtrapz (ys ts : List ℚ) : List ℚ :=
  match ys with
  | [] => []
  | _ :: _ => (trapIncs ys ts).scanl (· + ·) 0

/-- The `dust.txt` table: numeric columns `time`, `dust1_g_m2_yr`,
`dust2_g_m2_yr`; categorical columns `dustsp1`, `dustsp2` (read with
`map_numeric=False` and re-attached in this order, source lines 481–489). -/
structure DustTable where
  time : List ℚ
  dust1_g_m2_yr : List ℚ
  dust2_g_m2_yr : List ℚ
  dustsp1 : List String
  dustsp2 : List String

/-- Source lines 491–506: find which dust column carries the feedstock.
In pandas, comparing a numeric column to a string yields all-`False`, so only
the two categorical columns can match; `dustsp1` was appended before
`dustsp2`, so it is checked first; when neither matches, `fscol` is
`"not found"` and the index silently defaults to `"1"`. -/
def selectDustIdx (d : DustTable) (feedstock : String) : String :=
  if d.dustsp1.contains feedstock then "1"
  else if d.dustsp2.contains feedstock then "2"
  else "1"

/-- Source lines 509–511: cumulative trapezoidal integral
(`int_dust_g_m2_yr`) of the selected dust-rate column over the **raw** dust
series, before any duplicate handling. -/
def intDustRaw (d : DustTable) (feedstock : String) : List ℚ :=
  cumtrapz (if selectDustIdx d feedstock = "1" then d.dust1_g_m2_yr
            else d.dust2_g_m2_yr) d.time

/-- `drop_duplicates(subset="time", keep="first")` over (time, value) rows;
the second argument accumulates the times already seen. -/
def dropDupFirst : List (ℚ × ℚ) → List ℚ → List (ℚ × ℚ)
  | [], _ => []
  | r :: rest, seen =>
    if seen.contains r.1 then dropDupFirst rest seen
    else r :: dropDupFirst rest (r.1 :: seen)

/-- First value at time `t` among the (deduplicated) dust rows. -/
def lookupTime (rows : List (ℚ × ℚ)) (t : ℚ) : Option ℚ :=
  match rows.find? (fun r => r.1 == t) with
  | some r => some r.2
  | none => none

/-- `pd.merge(df, dfdust_nodup, on="time", how="outer")` restricted to the
integral column: the flux table's times in order (with the matching dust
value where present, `NaN`/`none` otherwise) followed by the dust-only rows. -/
def outerMergeInt (dfTime : List ℚ) (rows : List (ℚ × ℚ)) : List (ℚ × Option ℚ) :=
  dfTime.map (fun t => (t, lookupTime rows t)) ++
    (rows.filter (fun r => !dfTime.contains r.1)).map (fun r => (r.1, some r.2))

/-- Position and value of the last present entry strictly before index `i`. -/
def prevSome (l : List (Option ℚ)) (i : Nat) : Option (Nat × ℚ) :=
  ((List.range i).filterMap (fun j => (l.getD j none).map (fun v => (j, v)))).getLast?

/-- Position and value of the first present entry strictly after index `i`. -/
def nextSome (l : List (Option ℚ)) (i : Nat) : Option (Nat × ℚ) :=
  ((List.range l.length).filterMap (fun j =>
    if i < j then (l.getD j none).map (fun v => (j, v)) else none)).head?

/-- pandas `Series.interpolate()` (default `method="linear"`): positional
linear interpolation of missing entries; leading `NaN`s stay missing,
trailing `NaN`s take the last present value. -/
def interpolateL (l : List (Option ℚ)) : List (Option ℚ) :=
  (List.range l.length).map (fun i =>
    match l.getD i none with
    | some v => some v
    | none =>
      match prevSome l i, nextSome l i with
      | some pv, some nv =>
          some (pv.2 + (nv.2 - pv.2) * ((i : ℚ) - (pv.1 : ℚ)) / ((nv.1 : ℚ) - (pv.1 : ℚ)))
      | some pv, none => some pv.2
      | none, _ => none)

/-- Source lines 509–533: the integrated dust series aligned to the flux
table's `time` grid and converted to ton/ha (`/ 100`).  When the lengths
match, the raw integral is assigned positionally with **no** duplicate
handling; otherwise duplicate times are dropped (keep-first) from the
*already integrated* series, which is then outer-merged on `time`,
interpolated, and restricted to the flux grid. -/
def sldIntDust (dfTime : List ℚ) (d : DustTable) (feedstock : String) :
    List (Option ℚ) :=
  let ints := intDustRaw d feedstock
  if d.time.length ≠ dfTime.length then
    let nodup := dropDupFirst (d.time.zip ints) []
    let merged := outerMergeInt dfTime nodup
    let interped := interpolateL (merged.map Prod.snd)
    ((merged.zip interped).filter (fun r => dfTime.contains r.1.1)).map
      (fun r => r.2.map (fun v => v / 100))
  else ints.map (fun v => some (v / 100))

/-- Modelled from the spec: the policy claim C3 asserts — keep only the first
occurrence of each duplicated `time` value, **then** compute the cumulative
trapezoidal integral of the dust-rate column.  Defined solely for comparison
with the source's `sldIntDust`. -/
def intDustSpecKeepFirst (d : DustTable) (feedstock : String) : List ℚ :=
  let rows := dropDupFirst (d.time.zip
    (if selectDustIdx d feedstock = "1" then d.dust1_g_m2_yr
     else d.dust2_g_m2_yr)) []
  cumtrapz (rows.map Prod.snd) (rows.map Prod.fst)

/-- One output row of `sld_flx` (source lines 548–565): the selected columns
and the derived dissolution quantities.  Fields derived from the applied-dust
series are `Option`-valued because that series may contain `NaN`. -/
structure SldRow where
  time : ℚ
  int_dust_ton_ha_yr : Option ℚ
  adv : ℚ
  total_dissolution : ℚ
  dust_minus_adv : Option ℚ
  fraction_sld_advected : Option ℚ
  fraction_sld_remaining : Option ℚ
  fraction_remaining_dissolved : Option ℚ
  fraction_total_dissolved : Option ℚ

/-- Build one `sld_flx` output row from time, cumulative dust, converted
`adv` and converted feedstock-dissolution values (source lines 550–565). -/
def mkSldRow (t : ℚ) (dOpt : Option ℚ) (advV fsV : ℚ) : SldRow :=
  { time := t
    int_dust_ton_ha_yr := dOpt
    adv := advV
    total_dissolution := fsV
    dust_minus_adv := dOpt.map (fun dv => dv - advV)
    fraction_sld_advected := dOpt.map (fun dv => advV / dv)
    fraction_sld_remaining := dOpt.map (fun dv => (dv - advV - fsV) / dv)
    fraction_remaining_dissolved := dOpt.map (fun dv => fsV / (dv - advV))
    fraction_total_dissolved := dOpt.map (fun dv => fsV / dv) }

/-- `sld_flx` (source lines 423–568) applied to the loaded instantaneous
table `df` (used only for its `time` grid in the dust merge), integrated
table `dfint`, and `dust.txt` table.  Steps: multiply `dfint` by `time`
(all columns but `time`); obtain the cumulative applied-dust series — from
`dust.txt` when `dust_from_file`, else from the (already time-multiplied)
`rain` column times `-1 * molar_mass * conv_factor`; convert `adv` and the
feedstock's own dissolution column by `molar_mass * conv_factor`; derive the
dissolution fractions.  The missing-molar-mass `KeyError` is the error case. -/
def sld_flx (df dfint : DF) (dust : DustTable) (feedstock : String)
    (dust_from_file : Bool := true) : Except String (List SldRow) :=
  match dictLookup molar_mass_dict feedstock with
  | none => .error ("KeyError: " ++ feedstock)
  | some mm =>
    let dfint1 := applyExcept ["time"] (fun vs => mulL vs (getCol dfint "time")) dfint
    let intdust : List (Option ℚ) :=
      if dust_from_file then sldIntDust (getCol df "time") dust feedstock
      else (getCol dfint1 "rain").map (fun r => some (-1 * r * mm * conv_factor))
    let advCol := (getCol dfint1 "adv").map (fun v => v * mm * conv_factor)
    let fsCol := (getCol dfint1 feedstock).map (fun v => v * mm * conv_factor)
    .ok (((getCol dfint1 "time").zip (intdust.zip (advCol.zip fsCol))).map
      (fun r => mkSldRow r.1 r.2.1 r.2.2.1 r.2.2.2))

/-! ## C3: duplicate `time` values and the trapezoidal integral -/

theorem length_trapIncs : ∀ ys ts : List ℚ,
    (trapIncs ys ts).length = min (ys.length - 1) (ts.length - 1)
  | [], ts => by simp [trapIncs]
  | [y], ts => by simp [trapIncs]
  | y1 :: y2 :: ys, [] => by simp [trapIncs]
  | y1 :: y2 :: ys, [t] => by simp [trapIncs]
  | y1 :: y2 :: ys, t1 :: t2 :: ts => by
    simp only [trapIncs, List.length_cons]
    rw [length_trapIncs (y2 :: ys) (t2 :: ts)]
    simp only [List.length_cons]
    omega

theorem trapIncs_getD : ∀ (ys ts : List ℚ) (i : Nat), i + 1 < ys.length →
    i + 1 < ts.length →
    (trapIncs ys ts).getD i 0 =
      (ts.getD (i+1) 0 - ts.getD i 0) * (ys.getD i 0 + ys.getD (i+1) 0) / 2
  | [], _, i, hy, _ => by simp at hy
  | [y], _, i, hy, _ => by simp at hy
  | y1 :: y2 :: ys, [], i, _, ht => by simp at ht
  | y1 :: y2 :: ys, [t], i, _, ht => by simp at ht
  | y1 :: y2 :: ys, t1 :: t2 :: ts, 0, _, _ => by simp [trapIncs]
  | y1 :: y2 :: ys, t1 :: t2 :: ts, i + 1, hy, ht => by
    simp only [trapIncs, List.getD_cons_succ]
    exact trapIncs_getD (y2 :: ys) (t2 :: ts) i (by simpa using hy)
      (by simpa using ht)

theorem scanl_getD_succ : ∀ (l : List ℚ) (a : ℚ) (i : Nat), i < l.length →
    (l.scanl (· + ·) a).getD (i+1) 0 =
      (l.scanl (· + ·) a).getD i 0 + l.getD i 0
  | [], _, i, h => by simp at h
  | x :: xs, a, 0, _ => by cases xs <;> simp [List.scanl]
  | x :: xs, a, i + 1, h => by
    simp only [List.scanl, List.getD_cons_succ]
    exact scanl_getD_succ xs (a + x) i (by simpa using h)

/-- C3 amended: `sld_flx` integrates the **raw** dust series, duplicates
included; an adjacent duplicated `time` value contributes a zero-width
trapezoid, so the cumulative integral used by `sldIntDust` is unchanged
across the duplicate row (keep-first dropping happens only afterwards, and
only in the length-mismatch branch). -/
theorem C3_amended_zero_width_duplicates (ys ts : List ℚ) (i : Nat)
    (hy : i + 1 < ys.length) (ht : i + 1 < ts.length)
    (hdup : ts.getD i 0 = ts.getD (i+1) 0) :
    (cumtrapz ys ts).getD (i+1) 0 = (cumtrapz ys ts).getD i 0 := by
  cases ys with
  | nil => simp at hy
  | cons y ys0 =>
    simp only [cumtrapz]
    rw [scanl_getD_succ _ _ _ (by
      rw [length_trapIncs]
      simp only [List.length_cons] at hy ⊢
      omega)]
    rw [trapIncs_getD _ _ _ hy ht, hdup]
    ring

/-- Witness for the amended C3 at a concrete series with a duplicated time. -/
theorem C3_amended_zero_width_duplicates_witness :
    (cumtrapz [1, 2, 3] [0, 1, 1]).getD 2 0 =
      (cumtrapz [1, 2, 3] [0, 1, 1]).getD 1 0 :=
  C3_amended_zero_width_duplicates [1, 2, 3] [0, 1, 1] 1 (by norm_num)
    (by norm_num) (by norm_num [List.getD])

/-- A dust table with a duplicated `time` row whose rate differs between the
two duplicate rows. -/
def dust_dup_example : DustTable :=
  { time := [0, 1, 1, 2]
    dust1_g_m2_yr := [0, 0, 10, 0]
    dust2_g_m2_yr := [0, 0, 0, 0]
    dustsp1 := ["cc", "cc", "cc", "cc"]
    dustsp2 := ["no", "no", "no", "no"] }

/-- C3 counterexample: `sld_flx`'s dust path does **not** keep only the first
occurrence of each duplicated time before integrating.  On a series with a
duplicated `time=1` row (rates 0 then 10), the source integrates over the raw
series — the duplicate row's rate enters the following trapezoid, giving 0.05
at `time=2` — whereas the claimed keep-first-then-integrate policy gives 0. -/
theorem C3_counterexample :
    sldIntDust [0, 1, 2] dust_dup_example "cc" = [some 0, some 0, some (1/20)] ∧
    (intDustSpecKeepFirst dust_dup_example "cc").map (fun v => some (v / 100)) =
      [some 0, some 0, some 0] ∧
    ¬ (sldIntDust [0, 1, 2] dust_dup_example "cc" =
        (intDustSpecKeepFirst dust_dup_example "cc").map (fun v => some (v / 100))) := by
  refine ⟨?_, ?_, ?_⟩ <;>
    · simp [sldIntDust, intDustSpecKeepFirst, intDustRaw, selectDustIdx,
        dust_dup_example, cumtrapz, trapIncs, dropDupFirst, outerMergeInt,
        lookupTime, interpolateL, prevSome, nextSome, List.scanl, List.range,
        List.range.loop]
      try norm_num

/-! ## C6: the dissolution-fraction invariant -/

/-- C6: every `sld_flx` output row whose cumulative applied dust
`int_dust_ton_ha_yr` is a (non-`NaN`) value `D > 0` satisfies
`fraction_sld_advected + fraction_sld_remaining + total_dissolution / D = 1`
exactly in rational arithmetic: the three terms are `adv/D`, `(D-adv-fs)/D`
and `fs/D` over the same denominator `D`. -/
theorem C6_fraction_invariant (df dfint : DF) (dust : DustTable)
    (feedstock : String) (dff : Bool) (rows : List SldRow)
    (hok : sld_flx df dfint dust feedstock dff = .ok rows) :
    ∀ r ∈ rows, ∀ D : ℚ, r.int_dust_ton_ha_yr = some D → 0 < D →
      r.fraction_sld_advected = some (r.adv / D) ∧
      r.fraction_sld_remaining = some ((D - r.adv - r.total_dissolution) / D) ∧
      r.adv / D + (D - r.adv - r.total_dissolution) / D
        + r.total_dissolution / D = 1 := by
  intro r hr D hD hDpos
  have hD0 : D ≠ 0 := ne_of_gt hDpos
  cases hmm : dictLookup molar_mass_dict feedstock with
  | none => simp [sld_flx, hmm] at hok
  | some mm =>
    simp only [sld_flx, hmm] at hok
    rw [Except.ok.injEq] at hok
    rw [← hok] at hr
    rcases List.mem_map.1 hr with ⟨q, hq, rfl⟩
    simp only [mkSldRow] at hD ⊢
    rw [hD]
    refine ⟨rfl, rfl, ?_⟩
    rw [div_add_div_same, div_add_div_same, div_eq_one_iff_eq hD0]
    ring

/-- Concrete `sld_flx` inputs for the C6 witness: two time points, feedstock
`g1` (molar mass 30), 200 g·m⁻² applied over one year. -/
def sld_example_df : DF := [("time", [0, 1])]

/-- Integrated table for the C6 witness. -/
def sld_example_dfint : DF := [("time", [0, 1]), ("adv", [0, 1]), ("g1", [0, 1])]

/-- Dust table for the C6 witness. -/
def sld_example_dust : DustTable :=
  { time := [0, 1], dust1_g_m2_yr := [200, 200], dust2_g_m2_yr := [0, 0]
    dustsp1 := ["g1", "g1"], dustsp2 := ["no", "no"] }

/-- The `sld_flx` output on the C6 witness inputs. -/
def sld_example_rows : List SldRow :=
  [mkSldRow 0 (some 0) 0 0, mkSldRow 1 (some 2) (3/10) (3/10)]

theorem sld_example_rows_ok :
    sld_flx sld_example_df sld_example_dfint sld_example_dust "g1" true =
      .ok sld_example_rows := by
  simp [sld_flx, dictLookup, molar_mass_dict, sld_example_df, sld_example_dfint,
    sld_example_dust, sld_example_rows, applyExcept, getCol, mulL, sldIntDust,
    intDustRaw, selectDustIdx, cumtrapz, trapIncs, conv_factor, ton_g, m2_ha,
    List.scanl, mkSldRow]
  norm_num

/-- Witness for C6 on the second row of the concrete `sld_flx` output. -/
theorem C6_fraction_invariant_witness :
    (mkSldRow 1 (some 2) (3/10) (3/10)).fraction_sld_advected =
      some ((mkSldRow 1 (some 2) (3/10) (3/10)).adv / 2) ∧
    (mkSldRow 1 (some 2) (3/10) (3/10)).fraction_sld_remaining =
      some ((2 - (mkSldRow 1 (some 2) (3/10) (3/10)).adv
        - (mkSldRow 1 (some 2) (3/10) (3/10)).total_dissolution) / 2) ∧
    (mkSldRow 1 (some 2) (3/10) (3/10)).adv / 2
      + (2 - (mkSldRow 1 (some 2) (3/10) (3/10)).adv
        - (mkSldRow 1 (some 2) (3/10) (3/10)).total_dissolution) / 2
      + (mkSldRow 1 (some 2) (3/10) (3/10)).total_dissolution / 2 = 1 :=
  C6_fraction_invariant sld_example_df sld_example_dfint sld_example_dust "g1"
    true sld_example_rows sld_example_rows_ok
    (mkSldRow 1 (some 2) (3/10) (3/10)) (by simp [sld_example_rows]) 2
    (by simp [mkSldRow]) (by norm_num)

/-! ## C10: silent fallback to dust column 1 -/

/-- C10: when the feedstock name appears in neither `dustsp1` nor `dustsp2`,
`sld_flx` with `dust_from_file=True` does not raise: the column index
silently defaults to `"1"`, the cumulative dust integral is computed from
`dust1_g_m2_yr`, and the dissolution computation proceeds normally (the only
error case is an unknown feedstock in the molar-mass dictionary). -/
theorem C10_dust_label_fallback (df dfint : DF) (dust : DustTable)
    (feedstock : String)
    (h1 : dust.dustsp1.contains feedstock = false)
    (h2 : dust.dustsp2.contains feedstock = false)
    (hmm : (dictLookup molar_mass_dict feedstock).isSome = true) :
    selectDustIdx dust feedstock = "1" ∧
    intDustRaw dust feedstock = cumtrapz dust.dust1_g_m2_yr dust.time ∧
    (sld_flx df dfint dust feedstock true).isOk = true := by
  have h1x : feedstock ∉ dust.dustsp1 := by simpa using h1
  have h2x : feedstock ∉ dust.dustsp2 := by simpa using h2
  have hsel : selectDustIdx dust feedstock = "1" := by
    simp [selectDustIdx, h1x, h2x]
  refine ⟨hsel, by simp [intDustRaw, hsel], ?_⟩
  cases hmm2 : dictLookup molar_mass_dict feedstock with
  | none => rw [hmm2] at hmm; simp at hmm
  | some mm => simp [sld_flx, hmm2, Except.isOk, Except.toBool]

/-- A dust table whose categorical labels never mention the feedstock `cc`. -/
def dust_nolabel_example : DustTable :=
  { time := [0, 1], dust1_g_m2_yr := [5, 5], dust2_g_m2_yr := [7, 7]
    dustsp1 := ["gbas", "gbas"], dustsp2 := ["amnt", "amnt"] }

/-- Witness for C10 at a concrete dust table and feedstock `cc`. -/
theorem C10_dust_label_fallback_witness :
    selectDustIdx dust_nolabel_example "cc" = "1" ∧
    intDustRaw dust_nolabel_example "cc" =
      cumtrapz dust_nolabel_example.dust1_g_m2_yr dust_nolabel_example.time ∧
    (sld_flx [] [] dust_nolabel_example "cc" true).isOk = true :=
  C10_dust_label_fallback [] [] dust_nolabel_example "cc" (by decide) (by decide)
    (by decide)

/-! ## `build_cation_df` (source lines 880–1018) -/

/-- The protected columns never trimmed (source line 929). -/
def columns_to_keep : List String := ["time", "adv", "tflx", "res"]

/-- Source lines 931–937: drop every column whose values are all at most
`1e-7` in absolute value, keeping the protected columns regardless.  (The
comparison uses the literal `1e-7`, not the `negligible_val` parameter.) -/
def trimNegligible (df : DF) : DF :=
  df.filter (fun p => p.2.any (fun v => decide ((1:ℚ)/10000000 < |v|)) ||
    columns_to_keep.contains p.1)

/-- `build_cation_df` (source lines 880–1018): trim negligible columns,
split the remaining source columns into carbonate-mineral sources
(intersection with `inorganic_sp_list`) and all other sources, sum each
group, derive the charge-adjusted advective flux
`-tflx - noncarbsld_source - carbsld_source/2`, the total
(`-noncarbsld_source - carbsld_source/2`) and their CO₂-potential columns.

Note: source line 946 computes the integrated table's non-carbonate sources
as `tmpdfint.columns.difference(exclude_cols)` — the exclusion list built
from the **instantaneous** table's carbonate columns; the variable
`exclude_cols_int` defined on line 944 is never used.  The embedding
reproduces this.  The source returns `(concat of both, tmpdf, tmpdfint)`;
the embedding returns the pair `(tmpdf, tmpdfint)` — the string/scalar tag
columns (`units`, `flx_type`, `runname`, `cation`, `charge`) are omitted. -/
def build_cation_df (cation : String) (ccharge : ℚ) (tmpdf tmpdfint : DF)
    (inorganic_sp_list : List String := ["cc", "dlm", "arg"])
    (co2potential_g_mol : ℚ := 4401/100) (convert_units : Bool := true) :
    DF × DF :=
  let tmpdfT := trimNegligible tmpdf
  let tmpdfintT := trimNegligible tmpdfint
  let inorg_sp := inorganic_sp_list.filter (fun s => hasCol tmpdfT s)
  let inorg_sp_int := inorganic_sp_list.filter (fun s => hasCol tmpdfintT s)
  let exclude_cols := inorg_sp ++ ["time", "tflx", "adv", "res"]
  -- the source also defines `exclude_cols_int = inorg_sp_int + [...]` here
  -- (line 944) but never uses it: line 946 filters the integrated table's
  -- columns against `exclude_cols` as well
  let noninorg_sources := (dfCols tmpdfT).filter (fun c => !exclude_cols.contains c)
  let noninorg_sources_int :=
    (dfCols tmpdfintT).filter (fun c => !exclude_cols.contains c)
  let n := (getCol tmpdfT "time").length
  let nInt := (getCol tmpdfintT "time").length
  let noncarb := match noninorg_sources with
    | [] => List.replicate n (0:ℚ)
    | _ :: _ => sumSel tmpdfT noninorg_sources
  let noncarbInt := match noninorg_sources_int with
    | [] => List.replicate nInt (0:ℚ)
    | _ :: _ => sumSel tmpdfintT noninorg_sources_int
  let carb := match inorg_sp with
    | [] => List.replicate n (0:ℚ)
    | _ :: _ => sumSel tmpdfT inorg_sp
  let carbInt := match inorg_sp_int with
    | [] => List.replicate nInt (0:ℚ)
    | _ :: _ => sumSel tmpdfintT inorg_sp_int
  let adv_cat := subL (subL ((getCol tmpdfT "tflx").map Neg.neg) noncarb)
    (carb.map (fun v => v / 2))
  let adv_cat_int := subL (subL ((getCol tmpdfintT "tflx").map Neg.neg) noncarbInt)
    (carbInt.map (fun v => v / 2))
  let tot_cat := subL (noncarb.map Neg.neg) (carb.map (fun v => v / 2))
  let tot_cat_int := subL (noncarbInt.map Neg.neg) (carbInt.map (fun v => v / 2))
  let tmpdf1 := tmpdfT ++ [("noncarbsld_source", noncarb), ("carbsld_source", carb)]
  let tmpdfint1 := tmpdfintT ++
    [("noncarbsld_source", noncarbInt), ("carbsld_source", carbInt)]
  let tmpdf2 := tmpdf1 ++ (if convert_units then
      [("co2pot_adv_tonHaYr",
         adv_cat.map (fun v => v * ccharge * co2potential_g_mol * conv_factor)),
       ("co2pot_tot_tonHaYr",
         tot_cat.map (fun v => v * ccharge * co2potential_g_mol * conv_factor))]
    else
      [("co2pot_adv_gm2Yr", adv_cat.map (fun v => v * ccharge * co2potential_g_mol)),
       ("co2pot_tot_gm2Yr", tot_cat.map (fun v => v * ccharge * co2potential_g_mol))])
  let tmpdfint2 := tmpdfint1 ++ (if convert_units then
      [("co2pot_adv_tonHa",
         adv_cat_int.map (fun v => v * ccharge * co2potential_g_mol * conv_factor)),
       ("co2pot_tot_tonHa",
         tot_cat_int.map (fun v => v * ccharge * co2potential_g_mol * conv_factor))]
    else
      [("co2pot_adv_gm2", adv_cat_int.map (fun v => v * ccharge * co2potential_g_mol)),
       ("co2pot_tot_gm2", tot_cat_int.map (fun v => v * ccharge * co2potential_g_mol))])
  (tmpdf2, tmpdfint2)

/-- C7 failing input, instantaneous table: no carbonate columns at all. -/
def cation_bug_tmpdf : DF := [("time", [1]), ("tflx", [1]), ("adv", [1])]

/-- C7 failing input, integrated table: carries a `cc` column (above the
negligibility threshold). -/
def cation_bug_tmpdfint : DF :=
  [("time", [1]), ("tflx", [1]), ("adv", [1]), ("cc", [1])]

/-- C7 (code bug): on an integrated table whose `cc` column is absent from
the instantaneous table, `build_cation_df` counts `cc` **both** in the
integrated table's `carbsld_source` and in its `noncarbsld_source`
(line 946 excludes only the instantaneous table's carbonate columns; the
intended `exclude_cols_int` of line 944 is never used), while the
instantaneous table's own split is as specified. -/
theorem C7_integrated_noncarb_double_counts :
    getCol (build_cation_df "ca" 2 cation_bug_tmpdf cation_bug_tmpdfint).2
      "carbsld_source" = [1] ∧
    getCol (build_cation_df "ca" 2 cation_bug_tmpdf cation_bug_tmpdfint).2
      "noncarbsld_source" = [1] ∧
    getCol (build_cation_df "ca" 2 cation_bug_tmpdf cation_bug_tmpdfint).1
      "noncarbsld_source" = [0] ∧
    getCol (build_cation_df "ca" 2 cation_bug_tmpdf cation_bug_tmpdfint).1
      "carbsld_source" = [0] := by
  refine ⟨?_, ?_, ?_, ?_⟩ <;>
    · norm_num [build_cation_df, trimNegligible, columns_to_keep, cation_bug_tmpdf,
        cation_bug_tmpdfint, hasCol, getCol, dfCols, sumSel, addL, subL]
      try decide

/-! ## `find_cations` and `sumCat_adv` (source lines 697–877) -/

/-- A file-system model: the set of existing file paths. -/
abbrev Env : Type := List String

/-- `os.path.join` with `/` separators. -/
def pjoin (parts : List String) : String := String.intercalate "/" parts

/-- `find_cations` (source lines 842–877): the registry keys whose
instantaneous flux file `{outdir}/{runname}/flx/{var_fn}-{key}.txt` exists,
in registry order.  Absence is not an error. -/
def find_cations (env : Env) (outdir runname : String)
    (var_fn : String := "flx_aq")
    (catvars_charge : List (String × ℚ) :=
      [("ca", 2), ("mg", 2), ("k", 1), ("na", 1)]) : List String :=
  catvars_charge.filterMap (fun p =>
    if env.contains (pjoin [outdir, runname, "flx", var_fn ++ "-" ++ p.1 ++ ".txt"])
    then some p.1 else none)

/-- One loop iteration of `sumCat_adv` (source lines 750–807): run
`build_cation_df` on the cation's two loaded tables (with
`build_cation_df`'s own default `convert_units=True` — `sumCat_adv` does not
forward its flag there, line 756), select and rename `time`/`tflx`/`adv`/
`carbsld_source`/`noncarbsld_source` to `*_charge` names, multiply every
column but `time` by the cation's charge, then append the CO₂-potential
columns copied unscaled from `build_cation_df`'s output.  `data` models
`get_data`'s successful reads: cation ↦ (instantaneous, integrated) table.

pandas raises `KeyError` at the first read of a missing column; the guards
model those reads in source order: `tmpdf["tflx"]` / `tmpdfint["tflx"]`
inside `build_cation_df` (lines 971–976; the protected columns survive
trimming untouched and `build_cation_df` only appends columns, so presence
in the built table equals presence in the trimmed input), then the `.loc`
selections of `time`/`tflx`/`adv` (lines 762–784), then the CO₂-potential
reads (lines 795–807).  Each branch of `build_cation_df` creates its two
potential columns for both tables together, so one presence test per block
is exact for the built tables.  In particular, with `convert_units=False`
the `gm2` columns were never created — the build at line 756 ran with its
default `True` — so that branch **always** raises `KeyError` (line 803). -/
def sumCat_tdf (catvars_charge : List (String × ℚ)) (data : String → DF × DF)
    (convert_units : Bool) (cat : String) : Except String (DF × DF) :=
  let ccharge := (dictLookup catvars_charge cat).getD 0
  let pair := data cat
  let built := build_cation_df cat ccharge pair.1 pair.2
  let nonintdf := built.1
  let intdf := built.2
  if hasCol nonintdf "tflx" = false then .error "KeyError: tflx"
  else if hasCol intdf "tflx" = false then .error "KeyError: tflx"
  else if hasCol nonintdf "time" = false then .error "KeyError: time"
  else if hasCol nonintdf "adv" = false then .error "KeyError: adv"
  else if hasCol intdf "time" = false then .error "KeyError: time"
  else if hasCol intdf "adv" = false then .error "KeyError: adv"
  else
    let tdf0 : DF := [("time", getCol nonintdf "time"),
      ("tflx_charge", getCol nonintdf "tflx"),
      ("adv_charge", getCol nonintdf "adv"),
      ("carbsld_source_charge", getCol nonintdf "carbsld_source"),
      ("noncarbsld_source_charge", getCol nonintdf "noncarbsld_source")]
    let tdfint0 : DF := [("time", getCol intdf "time"),
      ("tflx_charge", getCol intdf "tflx"),
      ("adv_charge", getCol intdf "adv"),
      ("carbsld_source_charge", getCol intdf "carbsld_source"),
      ("noncarbsld_source_charge", getCol intdf "noncarbsld_source")]
    let tdf1 := applyExcept ["time"] (List.map (fun v => v * ccharge)) tdf0
    let tdfint1 := applyExcept ["time"] (List.map (fun v => v * ccharge)) tdfint0
    if convert_units then
      if hasCol nonintdf "co2pot_adv_tonHaYr" = false then
        .error "KeyError: co2pot_adv_tonHaYr"
      else
        .ok (tdf1 ++
            [("co2pot_adv_tonHaYr", getCol nonintdf "co2pot_adv_tonHaYr"),
             ("co2pot_tot_tonHaYr", getCol nonintdf "co2pot_tot_tonHaYr")],
          tdfint1 ++
            [("co2pot_adv_tonHa", getCol intdf "co2pot_adv_tonHa"),
             ("co2pot_tot_tonHa", getCol intdf "co2pot_tot_tonHa")])
    else
      if hasCol nonintdf "co2pot_adv_gm2Yr" = false then
        .error "KeyError: co2pot_adv_gm2Yr"
      else
        .ok (tdf1 ++
            [("co2pot_adv_gm2Yr", getCol nonintdf "co2pot_adv_gm2Yr"),
             ("co2pot_tot_gm2Yr", getCol nonintdf "co2pot_tot_gm2Yr")],
          tdfint1 ++
            [("co2pot_adv_gm2", getCol intdf "co2pot_adv_gm2"),
             ("co2pot_tot_gm2", getCol intdf "co2pot_tot_gm2")])

/-- Source lines 813–822: `outdf.drop(columns="time") + tdf.drop(columns=
"time")` with `tdf`'s `time` column re-inserted at the front.  Both operands
have identical column layouts (with `time` first) by construction, so pandas'
name-aligned addition is positional here. -/
def addDFkeepTime (acc tdf : DF) : DF :=
  acc.zipWith (fun p q => if p.1 == "time" then (p.1, q.2) else (p.1, addL p.2 q.2))
    tdf

/-- The summary output of `sumCat_adv`: the instantaneous and integrated
running-sum tables plus the `var` label (the `+`-joined contributing
cations).  The source concatenates the two blocks with tag columns; the
per-cation detail dictionary is saved separately and not modelled here. -/
structure SumCatOut where
  inst : DF
  intg : DF
  var : String

/-- The tail of `sumCat_adv`'s loop (source lines 750–822, iterations after
the first): fold each later cation's charge-scaled tables into the running
sums with `addDFkeepTime`; an iteration that raises aborts the whole call. -/
def sumCat_loop (catvars_charge : List (String × ℚ)) (data : String → DF × DF)
    (convert_units : Bool) : List String → DF × DF → Except String (DF × DF)
  | [], acc => .ok acc
  | c :: cs, acc =>
    match sumCat_tdf catvars_charge data convert_units c with
    | .error e => .error e
    | .ok t => sumCat_loop catvars_charge data convert_units cs
        (addDFkeepTime acc.1 t.1, addDFkeepTime acc.2 t.2)

/-- `sumCat_adv` (source lines 697–839).  When no cation file exists, the
`for` loop never runs, so line 825 references the never-assigned `outdfint`
and Python raises `UnboundLocalError`; this is one error case.  A `KeyError`
raised inside an iteration (see `sumCat_tdf`) also aborts the call.
Otherwise the per-cation charge-weighted tables are folded with
`addDFkeepTime`, the integrated summary is multiplied by `time`, and `var`
is the `+`-joined list of discovered cations. -/
def sumCat_adv (env : Env) (outdir runname : String)
    (var_fn : String := "flx_aq")
    (catvars_charge : List (String × ℚ) :=
      [("ca", 2), ("mg", 2), ("k", 1), ("na", 1)])
    (data : String → DF × DF) (convert_units : Bool := true) :
    Except String SumCatOut :=
  let catvars_exist := find_cations env outdir runname var_fn catvars_charge
  match catvars_exist with
  | [] => .error "UnboundLocalError: local variable outdfint referenced before assignment"
  | c0 :: rest =>
    match sumCat_tdf catvars_charge data convert_units c0 with
    | .error e => .error e
    | .ok s0 =>
      match sumCat_loop catvars_charge data convert_units rest s0 with
      | .error e => .error e
      | .ok folded =>
        let outdfint := applyExcept ["time"]
          (fun vs => mulL vs (getCol folded.2 "time")) folded.2
        .ok { inst := folded.1, intg := outdfint
              var := String.intercalate "+" catvars_exist }

/-- C4 counterexample: with **no** cation file present (`S = ∅`),
`sumCat_adv` does not complete — the loop never assigns `outdf`/`outdfint`
and line 825 raises `UnboundLocalError`. -/
theorem C4_counterexample :
    sumCat_adv [] "out" "r" "flx_aq" [("ca", 2), ("mg", 2), ("k", 1), ("na", 1)]
      (fun _ => ([], [])) true =
      .error "UnboundLocalError: local variable outdfint referenced before assignment" :=
  rfl

theorem hasCol_append (a b : DF) (c : String) :
    hasCol (a ++ b) c = (hasCol a c || hasCol b c) := by
  induction a with
  | nil => simp [hasCol]
  | cons p rest ih => cases hc : (p.1 == c) <;> simp [hasCol, hc, ih]

/-- `build_cation_df` only appends columns to the trimmed instantaneous
table, so any column of the trimmed input is a column of the first output. -/
theorem hasCol_build_fst_of_trim (cat : String) (q : ℚ) (a b : DF) (c : String)
    (h : hasCol (trimNegligible a) c = true) :
    hasCol (build_cation_df cat q a b).1 c = true := by
  simp only [build_cation_df]
  rw [hasCol_append, hasCol_append, h]
  simp

/-- Likewise for the integrated table and the second output. -/
theorem hasCol_build_snd_of_trim (cat : String) (q : ℚ) (a b : DF) (c : String)
    (h : hasCol (trimNegligible b) c = true) :
    hasCol (build_cation_df cat q a b).2 c = true := by
  simp only [build_cation_df]
  rw [hasCol_append, hasCol_append, h]
  simp

/-- With its default `convert_units=True` — the only way `sumCat_adv` ever
calls it (line 756) — `build_cation_df` always creates the `tonHaYr`
CO₂-potential columns (and never the `gm2Yr` ones). -/
theorem hasCol_build_fst_tonHaYr (cat : String) (q : ℚ) (a b : DF) :
    hasCol (build_cation_df cat q a b).1 "co2pot_adv_tonHaYr" = true := by
  simp only [build_cation_df]
  rw [hasCol_append]
  simp [hasCol]

/-- A loop iteration of `sumCat_adv` with the default `convert_units=True`
completes whenever the cation's trimmed tables carry the `time`/`tflx`/`adv`
columns pandas reads (all protected from trimming). -/
theorem sumCat_tdf_isOk (registry : List (String × ℚ)) (data : String → DF × DF)
    (c : String)
    (h1 : hasCol (trimNegligible (data c).1) "time" = true)
    (h2 : hasCol (trimNegligible (data c).1) "tflx" = true)
    (h3 : hasCol (trimNegligible (data c).1) "adv" = true)
    (h4 : hasCol (trimNegligible (data c).2) "time" = true)
    (h5 : hasCol (trimNegligible (data c).2) "tflx" = true)
    (h6 : hasCol (trimNegligible (data c).2) "adv" = true) :
    (sumCat_tdf registry data true c).isOk = true := by
  simp only [sumCat_tdf]
  rw [hasCol_build_fst_of_trim _ _ _ _ _ h2, hasCol_build_snd_of_trim _ _ _ _ _ h5,
    hasCol_build_fst_of_trim _ _ _ _ _ h1, hasCol_build_fst_of_trim _ _ _ _ _ h3,
    hasCol_build_snd_of_trim _ _ _ _ _ h4, hasCol_build_snd_of_trim _ _ _ _ _ h6,
    hasCol_build_fst_tonHaYr]
  simp [Except.isOk, Except.toBool]

/-- The loop tail completes when every remaining iteration does. -/
theorem sumCat_loop_isOk (registry : List (String × ℚ)) (data : String → DF × DF) :
    ∀ (l : List String) (acc : DF × DF),
      (∀ c ∈ l, (sumCat_tdf registry data true c).isOk = true) →
      ∃ r, sumCat_loop registry data true l acc = .ok r
  | [], acc, _ => ⟨acc, rfl⟩
  | c :: cs, acc, h => by
    have hc := h c (by simp)
    cases hx : sumCat_tdf registry data true c with
    | error e => rw [hx] at hc; simp [Except.isOk, Except.toBool] at hc
    | ok t =>
      have ih := sumCat_loop_isOk registry data cs
        (addDFkeepTime acc.1 t.1, addDFkeepTime acc.2 t.2)
        (fun d hd => h d (by simp [hd]))
      simp only [sumCat_loop, hx]
      exact ih

/-- Environment in which exactly the `ca` and `mg` flux files exist. -/
def camg_env : Env := ["out/r/flx/flx_aq-ca.txt", "out/r/flx/flx_aq-mg.txt"]

/-- `flx_aq-ca` data for the C4 instance. -/
def cation_df_ca : DF := [("time", [1]), ("tflx", [3]), ("adv", [5])]

/-- `flx_aq-mg` data for the C4 instance. -/
def cation_df_mg : DF := [("time", [1]), ("tflx", [7]), ("adv", [11])]

/-- Sentinel data for the undiscovered cations (`k`, `na`): huge values that
would visibly corrupt the running sums if they were ever included. -/
def cation_df_sentinel : DF := [("time", [1]), ("tflx", [1000]), ("adv", [1000])]

/-- Per-cation table source for the C4 instance. -/
def camg_data : String → DF × DF := fun c =>
  if c = "ca" then (cation_df_ca, cation_df_ca)
  else if c = "mg" then (cation_df_mg, cation_df_mg)
  else (cation_df_sentinel, cation_df_sentinel)

theorem find_cations_camg :
    find_cations camg_env "out" "r" "flx_aq"
      [("ca", 2), ("mg", 2), ("k", 1), ("na", 1)] = ["ca", "mg"] := by decide

/-- The expected instantaneous summary on the `{ca, mg}` instance. -/
def camg_expected : DF :=
  [("time", [1]), ("tflx_charge", [20]), ("adv_charge", [32]),
   ("carbsld_source_charge", [0]), ("noncarbsld_source_charge", [0]),
   ("co2pot_adv_tonHaYr", [-4401/500]), ("co2pot_tot_tonHaYr", [0])]

/-- The expected integrated summary on the `{ca, mg}` instance. -/
def camg_expected_int : DF :=
  [("time", [1]), ("tflx_charge", [20]), ("adv_charge", [32]),
   ("carbsld_source_charge", [0]), ("noncarbsld_source_charge", [0]),
   ("co2pot_adv_tonHa", [-4401/500]), ("co2pot_tot_tonHa", [0])]

theorem trim_cation_df_ca : trimNegligible cation_df_ca = cation_df_ca := by
  norm_num [trimNegligible, cation_df_ca, columns_to_keep]
  try decide

theorem trim_cation_df_mg : trimNegligible cation_df_mg = cation_df_mg := by
  norm_num [trimNegligible, cation_df_mg, columns_to_keep]
  try decide

/-- `build_cation_df` output (both tables coincide up to the co2pot column
names) for `ca` on the C4 instance, instantaneous block. -/
def cation_built_ca : DF :=
  [("time", [1]), ("tflx", [3]), ("adv", [5]), ("noncarbsld_source", [0]),
   ("carbsld_source", [0]), ("co2pot_adv_tonHaYr", [-13203/5000]),
   ("co2pot_tot_tonHaYr", [0])]

/-- Integrated block of `build_cation_df` for `ca` on the C4 instance. -/
def cation_built_ca_int : DF :=
  [("time", [1]), ("tflx", [3]), ("adv", [5]), ("noncarbsld_source", [0]),
   ("carbsld_source", [0]), ("co2pot_adv_tonHa", [-13203/5000]),
   ("co2pot_tot_tonHa", [0])]

/-- Instantaneous block of `build_cation_df` for `mg` on the C4 instance. -/
def cation_built_mg : DF :=
  [("time", [1]), ("tflx", [7]), ("adv", [11]), ("noncarbsld_source", [0]),
   ("carbsld_source", [0]), ("co2pot_adv_tonHaYr", [-30807/5000]),
   ("co2pot_tot_tonHaYr", [0])]

/-- Integrated block of `build_cation_df` for `mg` on the C4 instance. -/
def cation_built_mg_int : DF :=
  [("time", [1]), ("tflx", [7]), ("adv", [11]), ("noncarbsld_source", [0]),
   ("carbsld_source", [0]), ("co2pot_adv_tonHa", [-30807/5000]),
   ("co2pot_tot_tonHa", [0])]

theorem build_cation_df_ca_eval :
    build_cation_df "ca" 2 cation_df_ca cation_df_ca =
      (cation_built_ca, cation_built_ca_int) := by
  simp only [build_cation_df, trim_cation_df_ca]
  simp [cation_df_ca, cation_built_ca, cation_built_ca_int, hasCol, getCol,
    dfCols, sumSel, addL, subL, List.filter_cons, List.filter_nil]
  try norm_num [conv_factor, ton_g, m2_ha]
  try decide

theorem build_cation_df_mg_eval :
    build_cation_df "mg" 2 cation_df_mg cation_df_mg =
      (cation_built_mg, cation_built_mg_int) := by
  simp only [build_cation_df, trim_cation_df_mg]
  simp [cation_df_mg, cation_built_mg, cation_built_mg_int, hasCol, getCol,
    dfCols, sumSel, addL, subL, List.filter_cons, List.filter_nil]
  try norm_num [conv_factor, ton_g, m2_ha]
  try decide

/-- Charge-scaled per-cation block for `ca` on the C4 instance. -/
def cation_tdf_ca : DF :=
  [("time", [1]), ("tflx_charge", [6]), ("adv_charge", [10]),
   ("carbsld_source_charge", [0]), ("noncarbsld_source_charge", [0]),
   ("co2pot_adv_tonHaYr", [-13203/5000]), ("co2pot_tot_tonHaYr", [0])]

/-- Integrated charge-scaled per-cation block for `ca`. -/
def cation_tdf_ca_int : DF :=
  [("time", [1]), ("tflx_charge", [6]), ("adv_charge", [10]),
   ("carbsld_source_charge", [0]), ("noncarbsld_source_charge", [0]),
   ("co2pot_adv_tonHa", [-13203/5000]), ("co2pot_tot_tonHa", [0])]

/-- Charge-scaled per-cation block for `mg` on the C4 instance. -/
def cation_tdf_mg : DF :=
  [("time", [1]), ("tflx_charge", [14]), ("adv_charge", [22]),
   ("carbsld_source_charge", [0]), ("noncarbsld_source_charge", [0]),
   ("co2pot_adv_tonHaYr", [-30807/5000]), ("co2pot_tot_tonHaYr", [0])]

/-- Integrated charge-scaled per-cation block for `mg`. -/
def cation_tdf_mg_int : DF :=
  [("time", [1]), ("tflx_charge", [14]), ("adv_charge", [22]),
   ("carbsld_source_charge", [0]), ("noncarbsld_source_charge", [0]),
   ("co2pot_adv_tonHa", [-30807/5000]), ("co2pot_tot_tonHa", [0])]

theorem sumCat_tdf_ca_eval :
    sumCat_tdf [("ca", 2), ("mg", 2), ("k", 1), ("na", 1)] camg_data true "ca" =
      .ok (cation_tdf_ca, cation_tdf_ca_int) := by
  simp only [sumCat_tdf, camg_data, dictLookup]
  simp [build_cation_df_ca_eval, cation_built_ca, cation_built_ca_int,
    cation_tdf_ca, cation_tdf_ca_int, hasCol, getCol, applyExcept]
  try norm_num
  try decide

theorem sumCat_tdf_mg_eval :
    sumCat_tdf [("ca", 2), ("mg", 2), ("k", 1), ("na", 1)] camg_data true "mg" =
      .ok (cation_tdf_mg, cation_tdf_mg_int) := by
  simp only [sumCat_tdf, camg_data, dictLookup]
  simp [build_cation_df_mg_eval, cation_built_mg, cation_built_mg_int,
    cation_tdf_mg, cation_tdf_mg_int, hasCol, getCol, applyExcept]
  try norm_num
  try decide

/-- The same iteration with `convert_units=False` raises: source line 803
reads `nonintdf["co2pot_adv_gm2Yr"]`, a column the build with its default
`convert_units=True` never created. -/
theorem sumCat_tdf_ca_false_eval :
    sumCat_tdf [("ca", 2), ("mg", 2), ("k", 1), ("na", 1)] camg_data false "ca" =
      .error "KeyError: co2pot_adv_gm2Yr" := by
  simp only [sumCat_tdf, camg_data, dictLookup]
  simp [build_cation_df_ca_eval, cation_built_ca, cation_built_ca_int, hasCol,
    getCol, applyExcept]
  try norm_num
  try decide

theorem sumCat_camg_eval :
    sumCat_adv camg_env "out" "r" "flx_aq"
        [("ca", 2), ("mg", 2), ("k", 1), ("na", 1)] camg_data true =
      .ok { inst := camg_expected, intg := camg_expected_int, var := "ca+mg" } := by
  simp only [sumCat_adv, find_cations_camg, sumCat_loop, sumCat_tdf_ca_eval,
    sumCat_tdf_mg_eval]
  simp [addDFkeepTime, cation_tdf_ca, cation_tdf_ca_int, cation_tdf_mg,
    cation_tdf_mg_int, camg_expected, camg_expected_int, applyExcept, getCol,
    addL, mulL]
  try norm_num
  try decide

/-- C4 amended: with the default `convert_units=True` (the only value the
orchestrator passes, line 1105), for every **nonempty** discovered subset
`S` of the cation registry whose per-cation tables carry the
`time`/`tflx`/`adv` columns pandas reads, `sumCat_adv` completes and labels
the summary's `var` with the `+`-joined list of `S`.  With
`convert_units=False` it raises instead even on well-formed data: line 756
builds the per-cation tables with `build_cation_df`'s default
`convert_units=True`, which creates only `tonHa` CO₂-potential columns, so
line 803's read of `co2pot_adv_gm2Yr` raises `KeyError` — shown on the
concrete `{ca, mg}` instance.  On that instance at `True`, `var = "ca+mg"`
and the running charge-weighted sums cover exactly `ca` and `mg` (charge 2
each: `adv_charge = 2·5 + 2·11 = 32`, `tflx_charge = 2·3 + 2·7 = 20`, CO₂
potential `(-3 + -7)·2·44.01·0.01`), excluding the sentinel-valued `k`,
`na`.  For `S = ∅` it raises `UnboundLocalError` instead. -/
theorem C4_amended_nonempty_subsets :
    (∀ (env : Env) (outdir runname var_fn : String)
      (registry : List (String × ℚ)) (data : String → DF × DF),
      find_cations env outdir runname var_fn registry ≠ [] →
      (∀ c ∈ find_cations env outdir runname var_fn registry,
        hasCol (trimNegligible (data c).1) "time" = true ∧
        hasCol (trimNegligible (data c).1) "tflx" = true ∧
        hasCol (trimNegligible (data c).1) "adv" = true ∧
        hasCol (trimNegligible (data c).2) "time" = true ∧
        hasCol (trimNegligible (data c).2) "tflx" = true ∧
        hasCol (trimNegligible (data c).2) "adv" = true) →
      (sumCat_adv env outdir runname var_fn registry data true).toOption.map
          SumCatOut.var =
        some (String.intercalate "+"
          (find_cations env outdir runname var_fn registry))) ∧
    sumCat_adv camg_env "out" "r" "flx_aq"
        [("ca", 2), ("mg", 2), ("k", 1), ("na", 1)] camg_data false =
      .error "KeyError: co2pot_adv_gm2Yr" ∧
    (sumCat_adv camg_env "out" "r" "flx_aq"
        [("ca", 2), ("mg", 2), ("k", 1), ("na", 1)] camg_data true).toOption.map
      SumCatOut.var = some "ca+mg" ∧
    (sumCat_adv camg_env "out" "r" "flx_aq"
        [("ca", 2), ("mg", 2), ("k", 1), ("na", 1)] camg_data true).toOption.map
      (fun o => getCol o.inst "adv_charge") = some [32] ∧
    (sumCat_adv camg_env "out" "r" "flx_aq"
        [("ca", 2), ("mg", 2), ("k", 1), ("na", 1)] camg_data true).toOption.map
      (fun o => getCol o.inst "tflx_charge") = some [20] ∧
    (sumCat_adv camg_env "out" "r" "flx_aq"
        [("ca", 2), ("mg", 2), ("k", 1), ("na", 1)] camg_data true).toOption.map
      (fun o => getCol o.inst "co2pot_adv_tonHaYr") = some [-4401/500] ∧
    (sumCat_adv camg_env "out" "r" "flx_aq"
        [("ca", 2), ("mg", 2), ("k", 1), ("na", 1)] camg_data true).toOption.map
      (fun o => getCol o.intg "adv_charge") = some [32] := by
  refine ⟨?_, ?_, ?_, ?_, ?_, ?_, ?_⟩
  · intro env outdir runname var_fn registry data hne hdata
    cases hc : find_cations env outdir runname var_fn registry with
    | nil => exact absurd hc hne
    | cons c0 rest =>
      have hall : ∀ c ∈ (c0 :: rest),
          (sumCat_tdf registry data true c).isOk = true := by
        intro c hcc
        have hd := hdata c (by rw [hc]; exact hcc)
        exact sumCat_tdf_isOk registry data c hd.1 hd.2.1 hd.2.2.1 hd.2.2.2.1
          hd.2.2.2.2.1 hd.2.2.2.2.2
      have h0 := hall c0 (by simp)
      cases hx0 : sumCat_tdf registry data true c0 with
      | error e => rw [hx0] at h0; simp [Except.isOk, Except.toBool] at h0
      | ok s0 =>
        obtain ⟨r, hr⟩ := sumCat_loop_isOk registry data rest s0
          (fun d hd => hall d (by simp [hd]))
        simp [sumCat_adv, hc, hx0, hr, Except.toOption]
  · simp [sumCat_adv, find_cations_camg, sumCat_tdf_ca_false_eval]
  all_goals
    rw [sumCat_camg_eval]
    simp [Except.toOption, camg_expected, camg_expected_int, getCol]
    try norm_num

/-- Witness for the universally quantified part of C4's amended claim, at the
concrete `{ca, mg}` environment (whose tables carry `time`/`tflx`/`adv`). -/
theorem C4_amended_nonempty_subsets_witness :
    (sumCat_adv camg_env "out" "r" "flx_aq"
        [("ca", 2), ("mg", 2), ("k", 1), ("na", 1)] camg_data true).toOption.map
      SumCatOut.var =
      some (String.intercalate "+" (find_cations camg_env "out" "r" "flx_aq"
        [("ca", 2), ("mg", 2), ("k", 1), ("na", 1)])) :=
  C4_amended_nonempty_subsets.1 camg_env "out" "r" "flx_aq"
    [("ca", 2), ("mg", 2), ("k", 1), ("na", 1)] camg_data (by decide)
    (by
      intro c hc
      rw [find_cations_camg] at hc
      simp only [List.mem_cons, List.not_mem_nil, or_false] at hc
      have e1 : (camg_data "ca").1 = cation_df_ca := rfl
      have e2 : (camg_data "ca").2 = cation_df_ca := rfl
      have e3 : (camg_data "mg").1 = cation_df_mg := rfl
      have e4 : (camg_data "mg").2 = cation_df_mg := rfl
      rcases hc with rfl | rfl <;>
        refine ⟨?_, ?_, ?_, ?_, ?_, ?_⟩ <;>
          first
            | (rw [e1, trim_cation_df_ca]; decide)
            | (rw [e2, trim_cation_df_ca]; decide)
            | (rw [e3, trim_cation_df_mg]; decide)
            | (rw [e4, trim_cation_df_mg]; decide))

/-! ## `cflx_calc` (source lines 1024–1134): the orchestrator

For claims C1 and C9 only the orchestrator's control flow matters: which
files each metric reads (`preprocess_txt`'s `open` raises
`FileNotFoundError` when one is missing, source line 138), which artifacts
were persisted before a failure (nothing catches the exception, so it aborts
`cflx_calc`), and which literal flags each call site passes.  The metrics'
numeric content is embedded separately above; here each metric appears at
the level of its file accesses and saved artifacts. -/

/-- `preprocess_txt`'s file access (source lines 129–156). -/
def preprocess_txt_io (env : Env) (outdir runname fn : String)
    (run_subdir : String := "flx") : Except String Unit :=
  let p := pjoin [outdir, runname, run_subdir, fn]
  if env.contains p then .ok () else .error ("FileNotFoundError: " ++ p)

/-- `get_data`'s two reads (source lines 159–206): the instantaneous file
and its `int_` counterpart. -/
def get_data_io (env : Env) (outdir runname var_fn cdvar : String) :
    Except String Unit := do
  preprocess_txt_io env outdir runname (var_fn ++ "-" ++ cdvar ++ ".txt")
  preprocess_txt_io env outdir runname ("int_" ++ var_fn ++ "-" ++ cdvar ++ ".txt")

/-- The file accesses of `co2_flx` (source line 328). -/
def co2_flx_io (env : Env) (outdir runname : String) : Except String Unit :=
  get_data_io env outdir runname "flx_gas" "pco2"

/-- The file accesses of `carbAlk_adv` (source line 627). -/
def carbAlk_adv_io (env : Env) (outdir runname : String) : Except String Unit :=
  get_data_io env outdir runname "flx_co2sp" "ALK"

/-- The per-cation reads of `sumCat_adv`'s loop (source line 754). -/
def read_cations (env : Env) (outdir runname : String) :
    List String → Except String Unit
  | [] => .ok ()
  | c :: cs => do
    get_data_io env outdir runname "flx_aq" c
    read_cations env outdir runname cs

/-- The file accesses and artifacts of `sumCat_adv` (source lines 744–839,
1108–1116): discover cations, read each discovered cation's pair of files,
raise `UnboundLocalError` when none was discovered; on success the saved
artifacts are the summary plus one file per cation. -/
def sumCat_adv_io (env : Env) (outdir runname : String) (convert_units : Bool) :
    Except String (List String) :=
  let cats := find_cations env outdir runname "flx_aq"
    [("ca", 2), ("mg", 2), ("k", 1), ("na", 1)]
  match cats with
  | [] => .error "UnboundLocalError: local variable outdfint referenced before assignment"
  | _ :: _ => do
    read_cations env outdir runname cats
    .ok ("cationflx_sum.pkl" :: cats.map (fun c => "cationflx_" ++ c ++ ".pkl"))

/-- The file accesses of `sld_flx` (source lines 472, 481): the `flx_sld`
pair and, when `dust_from_file`, `dust.txt`. -/
def sld_flx_io (env : Env) (outdir runname fs : String) (dust_from_file : Bool) :
    Except String Unit := do
  get_data_io env outdir runname "flx_sld" fs
  if dust_from_file then preprocess_txt_io env outdir runname "dust.txt"
  else .ok ()

/-- The observable outcome of one `cflx_calc` run: artifacts saved before any
failure, the uncaught error if one occurred, and the literal flag values
passed at each `sld_flx` (`dust_from_file`) and `sumCat_adv`
(`convert_units`) call site. -/
structure OrchResult where
  saved : List String
  err : Option String
  sldFlags : List Bool
  sumCatFlags : List Bool

/-- The rock-dissolution loop of `cflx_calc` (source lines 1119–1134): one
`sld_flx` call per feedstock, each passing the literal `dust_from_file=True`
(line 1129); an exception aborts the remaining iterations. -/
def sldLoop (env : Env) (outdir runname : String) :
    List String → OrchResult → OrchResult
  | [], s => s
  | fs :: rest, s =>
    let s1 := { s with sldFlags := s.sldFlags ++ [true] }
    match sld_flx_io env outdir runname fs true with
    | .ok _ => sldLoop env outdir runname rest
        { s1 with saved := s1.saved ++ ["rockflx_" ++ fs ++ ".pkl"] }
    | .error e => { s1 with err := some e }

/-- The result before any metric has run. -/
def orch_init : OrchResult :=
  { saved := [], err := none, sldFlags := [], sumCatFlags := [] }

/-- Block [1] of `cflx_calc` (source lines 1068–1081): run `co2_flx` when
selected and no earlier exception is propagating, saving `co2_flxs.pkl`. -/
def cflx_step_co2 (env : Env) (outdir runname : String)
    (calc_list : List String) (s : OrchResult) : OrchResult :=
  if s.err = none ∧ calc_list.contains "co2_flx" = true then
    match co2_flx_io env outdir runname with
    | .ok _ => { s with saved := s.saved ++ ["co2_flxs.pkl"] }
    | .error e => { s with err := some e }
  else s

/-- Block [2] of `cflx_calc` (source lines 1084–1096): `carbAlk_adv`. -/
def cflx_step_carbAlk (env : Env) (outdir runname : String)
    (calc_list : List String) (s : OrchResult) : OrchResult :=
  if s.err = none ∧ calc_list.contains "carbAlk_adv" = true then
    match carbAlk_adv_io env outdir runname with
    | .ok _ => { s with saved := s.saved ++ ["carbAlk_flxs.pkl"] }
    | .error e => { s with err := some e }
  else s

/-- Block [3] of `cflx_calc` (source lines 1099–1116): `sumCat_adv`, invoked
with the literal `convert_units=True` (line 1105), recorded in
`sumCatFlags`. -/
def cflx_step_sumCat (env : Env) (outdir runname : String)
    (calc_list : List String) (s : OrchResult) : OrchResult :=
  if s.err = none ∧ calc_list.contains "sumCat_adv" = true then
    let s1 := { s with sumCatFlags := s.sumCatFlags ++ [true] }
    match sumCat_adv_io env outdir runname true with
    | .ok arts => { s1 with saved := s1.saved ++ arts }
    | .error e => { s1 with err := some e }
  else s

/-- Block [4] of `cflx_calc` (source lines 1119–1134): the per-feedstock
`sld_flx` loop. -/
def cflx_step_sld (env : Env) (outdir runname : String)
    (calc_list : List String) (feedstock : List String) (s : OrchResult) :
    OrchResult :=
  if s.err = none ∧ calc_list.contains "sld_flx" = true then
    sldLoop env outdir runname feedstock s
  else s

/-- `cflx_calc` (source lines 1024–1134): run the selected metrics in the
source's fixed order, persisting each artifact; nothing is wrapped in
`try`/`except`, so the first exception aborts all later metrics (each block
guards on no propagating error).  Call sites: `co2_flx` and `carbAlk_adv`
receive the caller's `convert_units`; `sumCat_adv` receives the literal
`convert_units=True` (line 1105); `sld_flx` receives the literal
`dust_from_file=True` (line 1129).  A bare string `feedstock` is wrapped
into a singleton list by the source; the embedding takes the list. -/
def cflx_calc (env : Env) (outdir runname : String) (feedstock : List String)
    (dust_from_file : Bool := true) (convert_units : Bool := true)
    (save_dir : String := "postproc_flxs")
    (calc_list : List String := ["co2_flx", "carbAlk_adv", "sumCat_adv", "sld_flx"]) :
    OrchResult :=
  cflx_step_sld env outdir runname calc_list feedstock
    (cflx_step_sumCat env outdir runname calc_list
      (cflx_step_carbAlk env outdir runname calc_list
        (cflx_step_co2 env outdir runname calc_list orch_init)))

/-- Every input file for a full run of `cflx_calc` on run `r`, feedstock
`cc`, **except** `flx_gas-pco2.txt` (the first metric's first read). -/
def c1_env_no_pco2 : Env :=
  ["out/r/flx/int_flx_gas-pco2.txt",
   "out/r/flx/flx_co2sp-ALK.txt", "out/r/flx/int_flx_co2sp-ALK.txt",
   "out/r/flx/flx_aq-ca.txt", "out/r/flx/int_flx_aq-ca.txt",
   "out/r/flx/flx_sld-cc.txt", "out/r/flx/int_flx_sld-cc.txt",
   "out/r/flx/dust.txt"]

/-- Every input file except `flx_co2sp-ALK.txt` (the second metric's read). -/
def c1_env_no_alk : Env :=
  ["out/r/flx/flx_gas-pco2.txt", "out/r/flx/int_flx_gas-pco2.txt",
   "out/r/flx/int_flx_co2sp-ALK.txt",
   "out/r/flx/flx_aq-ca.txt", "out/r/flx/int_flx_aq-ca.txt",
   "out/r/flx/flx_sld-cc.txt", "out/r/flx/int_flx_sld-cc.txt",
   "out/r/flx/dust.txt"]

/-- C1 counterexample: one missing input file does **not** stay scoped to its
metric.  With only `flx_gas-pco2.txt` missing, `cflx_calc` aborts with an
uncaught `FileNotFoundError` (no `MissingInputError` type exists) and *no*
other selected metric persists its artifact; with only `flx_co2sp-ALK.txt`
missing, the earlier `co2_flx` has already persisted, but the later selected
`sumCat_adv` and `sld_flx` — whose inputs are all present — never run. -/
theorem C1_counterexample :
    (cflx_calc c1_env_no_pco2 "out" "r" ["cc"]).err =
      some "FileNotFoundError: out/r/flx/flx_gas-pco2.txt" ∧
    (cflx_calc c1_env_no_pco2 "out" "r" ["cc"]).saved = [] ∧
    (cflx_calc c1_env_no_alk "out" "r" ["cc"]).err =
      some "FileNotFoundError: out/r/flx/flx_co2sp-ALK.txt" ∧
    (cflx_calc c1_env_no_alk "out" "r" ["cc"]).saved = ["co2_flxs.pkl"] := by
  refine ⟨?_, ?_, ?_, ?_⟩ <;> decide

/-- C1 amended: a missing `flx_gas-pco2.txt` surfaces as an uncaught
`FileNotFoundError` naming the full path (which contains the run name and
file name); since `co2_flx` is the first metric in the default `calc_list`
and nothing catches the exception, the whole orchestrator aborts with no
artifact persisted, whatever else the environment contains. -/
theorem C1_amended_uncaught_abort (env : Env) (outdir runname fs : String)
    (hmiss : env.contains (pjoin [outdir, runname, "flx", "flx_gas-pco2.txt"])
      = false) :
    (cflx_calc env outdir runname [fs]).err =
      some ("FileNotFoundError: " ++ pjoin [outdir, runname, "flx", "flx_gas-pco2.txt"]) ∧
    (cflx_calc env outdir runname [fs]).saved = [] := by
  have hmiss2 : pjoin [outdir, runname, "flx", "flx_gas-pco2.txt"] ∉ env := by
    simpa using hmiss
  have hco2 : co2_flx_io env outdir runname =
      .error ("FileNotFoundError: " ++ pjoin [outdir, runname, "flx", "flx_gas-pco2.txt"]) := by
    simp [co2_flx_io, get_data_io, preprocess_txt_io, hmiss2, Bind.bind, Except.bind]
  simp [cflx_calc, cflx_step_co2, cflx_step_carbAlk, cflx_step_sumCat,
    cflx_step_sld, orch_init, hco2]

/-- Witness for the amended C1 at the empty environment. -/
theorem C1_amended_uncaught_abort_witness :
    (cflx_calc [] "out" "r" ["cc"]).err =
      some ("FileNotFoundError: " ++ pjoin ["out", "r", "flx", "flx_gas-pco2.txt"]) ∧
    (cflx_calc [] "out" "r" ["cc"]).saved = [] :=
  C1_amended_uncaught_abort [] "out" "r" "cc" (by decide)

theorem sldLoop_flags (env : Env) (outdir runname : String) :
    ∀ (l : List String) (s : OrchResult),
      ((sldLoop env outdir runname l s).sldFlags.all (fun b => b) =
        s.sldFlags.all (fun b => b)) ∧
      (sldLoop env outdir runname l s).sumCatFlags = s.sumCatFlags
  | [], s => ⟨rfl, rfl⟩
  | fs :: rest, s => by
    have ih := sldLoop_flags env outdir runname rest
      { s with saved := s.saved ++ ["rockflx_" ++ fs ++ ".pkl"], sldFlags := s.sldFlags ++ [true] }
    simp only [sldLoop]
    cases sld_flx_io env outdir runname fs true with
    | ok u => simpa [List.all_append] using ih
    | error e => simp [List.all_append]

/-- The environment containing every input file `cflx_calc` needs for run
`r` with feedstock `cc` (only the `ca` cation file pair present). -/
def cflx_good_env : Env :=
  ["out/r/flx/flx_gas-pco2.txt", "out/r/flx/int_flx_gas-pco2.txt",
   "out/r/flx/flx_co2sp-ALK.txt", "out/r/flx/int_flx_co2sp-ALK.txt",
   "out/r/flx/flx_aq-ca.txt", "out/r/flx/int_flx_aq-ca.txt",
   "out/r/flx/flx_sld-cc.txt", "out/r/flx/int_flx_sld-cc.txt",
   "out/r/flx/dust.txt"]

/-- C9: `cflx_calc` does not fully propagate its own flags: every value of
`dust_from_file` actually passed to `sld_flx` and every value of
`convert_units` actually passed to `sumCat_adv` is the literal `True`
(source lines 1129 and 1105), for **all** arguments — and in particular, on
a complete environment with `dust_from_file=False, convert_units=False`,
one call of each still receives `True`. -/
theorem C9_flags_not_propagated :
    (∀ (env : Env) (outdir runname : String) (feedstock : List String)
      (dff cu : Bool) (sd : String) (cl : List String),
      ((cflx_calc env outdir runname feedstock dff cu sd cl).sldFlags.all
        (fun b => b) = true) ∧
      ((cflx_calc env outdir runname feedstock dff cu sd cl).sumCatFlags.all
        (fun b => b) = true)) ∧
    (cflx_calc cflx_good_env "out" "r" ["cc"] false false).sldFlags = [true] ∧
    (cflx_calc cflx_good_env "out" "r" ["cc"] false false).sumCatFlags = [true] := by
  refine ⟨?_, by decide, by decide⟩
  intro env outdir runname feedstock dff cu sd cl
  have hco2 : ∀ s : OrchResult,
      (cflx_step_co2 env outdir runname cl s).sldFlags = s.sldFlags ∧
      (cflx_step_co2 env outdir runname cl s).sumCatFlags = s.sumCatFlags := by
    intro s
    simp only [cflx_step_co2]
    split
    · cases co2_flx_io env outdir runname <;> exact ⟨rfl, rfl⟩
    · exact ⟨rfl, rfl⟩
  have hcarb : ∀ s : OrchResult,
      (cflx_step_carbAlk env outdir runname cl s).sldFlags = s.sldFlags ∧
      (cflx_step_carbAlk env outdir runname cl s).sumCatFlags = s.sumCatFlags := by
    intro s
    simp only [cflx_step_carbAlk]
    split
    · cases carbAlk_adv_io env outdir runname <;> exact ⟨rfl, rfl⟩
    · exact ⟨rfl, rfl⟩
  have hsum : ∀ s : OrchResult,
      (cflx_step_sumCat env outdir runname cl s).sldFlags = s.sldFlags ∧
      ((cflx_step_sumCat env outdir runname cl s).sumCatFlags.all (fun b => b) =
        s.sumCatFlags.all (fun b => b)) := by
    intro s
    simp only [cflx_step_sumCat]
    split
    · cases sumCat_adv_io env outdir runname true <;> simp [List.all_append]
    · simp
  have hsld : ∀ s : OrchResult,
      ((cflx_step_sld env outdir runname cl feedstock s).sldFlags.all
        (fun b => b) = s.sldFlags.all (fun b => b)) ∧
      (cflx_step_sld env outdir runname cl feedstock s).sumCatFlags =
        s.sumCatFlags := by
    intro s
    simp only [cflx_step_sld]
    split
    · exact sldLoop_flags env outdir runname feedstock s
    · exact ⟨rfl, rfl⟩
  simp only [cflx_calc]
  set t0 := cflx_step_co2 env outdir runname cl orch_init with ht0
  set t1 := cflx_step_carbAlk env outdir runname cl t0 with ht1
  set t2 := cflx_step_sumCat env outdir runname cl t1 with ht2
  constructor
  · rw [(hsld t2).1, (hsum t1).1, (hcarb t0).1, (hco2 orch_init).1]
    rfl
  · rw [(hsld t2).2]
    have h2 := (hsum t1).2
    have h1 := (hcarb t0).2
    have h0 := (hco2 orch_init).2
    -- the sumCat flags list is [] or [true]; its `all` is `true` either way
    rw [h1, h0] at h2
    cases hfl : t2.sumCatFlags with
    | nil => rfl
    | cons b bs =>
      rw [hfl] at h2
      simp [orch_init] at h2 ⊢
      rcases h2 with ⟨hb, hbs⟩
      simp [hb, hbs]

end CflxProc
